import Mathlib

/-!
Verification development for the NamakeWM GNOME extension
(multi-monitor independent-workspace engine).

The definitions below are a shallow embedding of the engine in
`extension.js` (the main extension class).  JavaScript `Map` objects are
modelled as association lists with insert-or-update semantics matching
`Map.set`/`Map.get`/`Map.delete`; `Map` keys that are window-id strings
of the form "seq_<n>" are modelled by the underlying natural number `n`
(the compositor's stable sequence, which `_getWindowId` prefers).
Pixel coordinates are mathematical integers; the half-pixel window
centre `x + w/2` is compared against monitor bounds after multiplying
both sides by two, which is an exact rendering of the JavaScript
floating-point comparison for integer frame rectangles.  Deferred
timers that merely re-apply the very same `move_resize_frame` call
(the 50 ms "re-apply size" callbacks) are coalesced into the original
write, since they write identical values.  Effects outside the
modelled state (logging, pointer warps, focusing, OSD, banner and
indicator widgets) are noted in comments at the point where the source
performs them.
-/

namespace NamakeWM

/-! ## JavaScript `Map` as an association list -/

/-- `Map.get`: the value at the first (in fact only) entry for key `k`. -/
def mget {α : Type} (m : List (Nat × α)) (k : Nat) : Option α :=
  (m.find? (fun p => p.1 = k)).map (·.2)

/-- `Map.set`: update the entry for `k` in place if present, else append.
JavaScript `Map` keys are unique and insertion order is preserved, so
replacing the first occurrence (or appending at the end) is an exact
model. -/
def mset {α : Type} : List (Nat × α) → Nat → α → List (Nat × α)
  | [], k, v => [(k, v)]
  | p :: t, k, v => if p.1 = k then (k, v) :: t else p :: mset t k v

/-- `Map.delete`: remove the entry for `k`. -/
def mdel {α : Type} (m : List (Nat × α)) (k : Nat) : List (Nat × α) :=
  m.filter (fun p => p.1 ≠ k)

theorem mget_mset_self {α : Type} (m : List (Nat × α)) (k : Nat) (v : α) :
    mget (mset m k v) k = some v := by
  induction m with
  | nil => simp [mget, mset, List.find?]
  | cons p t ih =>
    by_cases hp : p.1 = k
    · simp [mget, mset, hp, List.find?]
    · simp only [mset, if_neg hp]
      unfold mget
      rw [List.find?_cons_of_neg _ (by simpa using hp)]
      exact ih

theorem mget_mset_ne {α : Type} (m : List (Nat × α)) (k k' : Nat) (v : α)
    (h : k' ≠ k) : mget (mset m k v) k' = mget m k' := by
  induction m with
  | nil => simp [mget, mset, List.find?, Ne.symm h]
  | cons p t ih =>
    by_cases hp : p.1 = k
    · simp only [mset, if_pos hp]
      unfold mget
      rw [List.find?_cons_of_neg _ (by simpa using (Ne.symm h)),
          List.find?_cons_of_neg _ (by rw [hp]; simpa using (Ne.symm h))]
    · simp only [mset, if_neg hp]
      unfold mget
      by_cases hp' : p.1 = k'
      · rw [List.find?_cons_of_pos _ (by simpa using hp'),
            List.find?_cons_of_pos _ (by simpa using hp')]
      · rw [List.find?_cons_of_neg _ (by simpa using hp'),
            List.find?_cons_of_neg _ (by simpa using hp')]
        exact ih

/-- `Set.has` on a JavaScript `Set` of window ids. -/
def shas (s : List Nat) (k : Nat) : Bool := s.contains k

/-- `Set.add`: append if absent (JS sets preserve insertion order). -/
def sadd (s : List Nat) (k : Nat) : List Nat :=
  if s.contains k then s else s ++ [k]

/-- A successful `mget` comes from an entry of the list. -/
theorem mget_mem {α : Type} {m : List (Nat × α)} {k : Nat} {v : α}
    (h : mget m k = some v) : (k, v) ∈ m := by
  unfold mget at h
  cases hf : m.find? (fun p => p.1 = k) with
  | none => rw [hf] at h; simp at h
  | some p =>
    rw [hf] at h
    have hm := List.mem_of_find?_eq_some hf
    have hp := List.find?_some hf
    simp only [decide_eq_true_eq] at hp
    simp only [Option.map_some', Option.some.injEq] at h
    have : p = (k, v) := by
      cases p; simp only [Prod.mk.injEq]; exact ⟨hp, h⟩
    rwa [this] at hm

/-! ## Data model: monitors, windows, engine state

Mirrors the fields of `MultiMonitorsWorkspaceExtension` and the
read-only host data the engine consults (`global.display`,
`global.workspace_manager`, `global.get_window_actors()`).  The pointer
position and the monitor layout are inputs to each operation; the
mutable engine fields and the mutable window/workspace facts form the
`World`. -/

/-- A frame or monitor rectangle (`get_frame_rect`,
`get_monitor_geometry`). -/
structure Rect where
  x : Int
  y : Int
  width : Int
  height : Int
deriving Repr, DecidableEq

/-- `Meta.WindowType`, collapsed to the three cases the engine
distinguishes. -/
inductive WinType where
  | normal
  | dialog
  | other
deriving Repr, DecidableEq

/-- A `Meta.Window` as the engine observes it.  `id` is the stable
sequence number (`get_stable_sequence`).  `workspace = none` models a
sticky window (`is_on_all_workspaces`, where `get_workspace()` is
null); otherwise it is the index of the window's workspace.
`assignedMonitor` is the host's monitor association written by
`move_to_monitor`. -/
structure Window where
  id : Nat
  rect : Rect
  workspace : Option Nat
  wtype : WinType
  hidden : Bool
  minimized : Bool
  skipTaskbar : Bool
  assignedMonitor : Nat
deriving Repr, DecidableEq

/-- The monitor layout: geometries indexed by monitor number and the
primary monitor's index (`get_n_monitors`, `get_monitor_geometry`,
`get_primary_monitor`). -/
structure Display where
  monitors : List Rect
  primary : Nat
deriving Repr, DecidableEq

/-- Relative-position cache entry (`_savedWindowPositions` values
`{ relX, relY, wsIndex }`). -/
structure SavedPos where
  relX : Int
  relY : Int
  wsIndex : Nat
deriving Repr, DecidableEq

/-- Pre-disable snapshot entry (`_savedWindowsBeforeDisable` values;
the `title` field is only logged and is not modelled). -/
structure SavedWin where
  monitorIndex : Nat
  logicalWs : Nat
  relX : Int
  relY : Int
  width : Int
  height : Int
deriving Repr, DecidableEq

/-- The mutable state: the engine's maps plus the mutable host facts it
reads and writes (window list, number of workspaces, active global
workspace).  `activations` logs every host-level `workspace.activate`
call so that "no extra activate is issued" is observable. -/
structure World where
  windows : List Window
  nWorkspaces : Nat
  globalWs : Nat
  monitorWorkspaceMap : List (Nat × Nat)
  savedWindowPositions : List (Nat × SavedPos)
  windowsPendingPlacement : List (Nat × Nat)
  savedWindowsBeforeDisable : List (Nat × SavedWin)
  lastWindowPerWorkspace : List (Nat × Nat)
  recentlyProcessedWindows : List Nat
  activations : List Nat
deriving Repr, DecidableEq

/-- `get_monitor_geometry(i)`; every caller in the engine passes an
index below `get_n_monitors()`, for which this is total. -/
def geoD (d : Display) (i : Nat) : Rect :=
  (d.monitors.get? i).getD ⟨0, 0, 0, 0⟩

/-- The window-centre containment test `centerX >= geo.x && centerX <
geo.x + geo.width && ...` with `centerX = rect.x + rect.width / 2`.
Both sides are multiplied by two so that the JavaScript half-pixel
centre is compared exactly. -/
def centerIn (r geo : Rect) : Bool :=
  decide (2 * geo.x ≤ 2 * r.x + r.width) &&
  decide (2 * r.x + r.width < 2 * (geo.x + geo.width)) &&
  decide (2 * geo.y ≤ 2 * r.y + r.height) &&
  decide (2 * r.y + r.height < 2 * (geo.y + geo.height))

/-- Pointer containment test `pointerX >= geo.x && pointerX < geo.x +
geo.width && ...`. -/
def ptIn (px py : Int) (geo : Rect) : Bool :=
  decide (geo.x ≤ px) && decide (px < geo.x + geo.width) &&
  decide (geo.y ≤ py) && decide (py < geo.y + geo.height)

/-- `_getMonitorAtPointer`: first monitor whose rectangle contains the
pointer; falls back to the primary monitor when none does. -/
def getMonitorAtPointer (d : Display) (px py : Int) : Nat :=
  match (List.range d.monitors.length).find? (fun i => ptIn px py (geoD d i)) with
  | some i => i
  | none => d.primary

/-- `_getWindowMonitor`: monitor containing the window's centre, by
coordinate (`none` models the `-1` "no monitor" return). -/
def getWindowMonitor (d : Display) (win : Window) : Option Nat :=
  (List.range d.monitors.length).find? (fun i => centerIn win.rect (geoD d i))

/-- `_getMonitorForWorkspace`: first monitor of the map displaying
`ws`. -/
def getMonitorForWorkspace (m : List (Nat × Nat)) (ws : Nat) : Option Nat :=
  (m.find? (fun p => p.2 = ws)).map (·.1)

/-- `_getWindowsOnMonitor`: normal, non-taskbar-skipped windows whose
centre lies on the monitor; hidden windows only with `includeHidden`.
(Minimized and sticky windows are deliberately not filtered here.) -/
def getWindowsOnMonitor (d : Display) (windows : List Window)
    (monitorIndex : Nat) (includeHidden : Bool) : List Window :=
  let geo := geoD d monitorIndex
  windows.filter (fun win =>
    !win.skipTaskbar && decide (win.wtype = WinType.normal) &&
    (includeHidden || !win.hidden) && centerIn win.rect geo)

/-- `_getWindowsOnWorkspace`: normal, non-taskbar-skipped, non-sticky
windows on workspace `wsIndex`; `[]` when the workspace does not exist
(`get_workspace_by_index` returned null). -/
def getWindowsOnWorkspace (w : World) (wsIndex : Nat) : List Window :=
  if wsIndex < w.nWorkspaces then
    w.windows.filter (fun win =>
      !win.skipTaskbar && decide (win.wtype = WinType.normal) &&
      decide (win.workspace ≠ none) && decide (win.workspace = some wsIndex))
  else []

/-- `win.get_workspace()?.index() ?? -1`. -/
def workspaceIndexOrNeg (win : Window) : Int :=
  match win.workspace with
  | some i => (i : Int)
  | none => -1

/-- `_getWindowsOnMonitorForWorkspace`: visible normal windows on the
monitor; on the primary monitor additionally filtered by the window's
actual workspace, on a secondary monitor every coordinate-resident
window counts as belonging to the displayed workspace. -/
def getWindowsOnMonitorForWorkspace (d : Display) (windows : List Window)
    (monitorIndex wsIndex : Nat) : List Window :=
  let geo := geoD d monitorIndex
  windows.filter (fun win =>
    decide (win.wtype = WinType.normal) && !win.hidden && !win.minimized &&
    centerIn win.rect geo &&
    (if monitorIndex = d.primary
     then decide (workspaceIndexOrNeg win = (wsIndex : Int))
     else true))

/-- `window.located_on_workspace(ws)`: true for sticky windows and for
the window's own workspace. -/
def locatedOnWorkspace (win : Window) (ws : Nat) : Bool :=
  win.workspace.isNone || decide (win.workspace = some ws)

/-- `_findWindowById`. -/
def findWindowById (windows : List Window) (winId : Nat) : Option Window :=
  windows.find? (fun win => win.id = winId)

/-! ## Primitive window mutations -/

/-- Mutate the window object with stable sequence `winId` (JS mutates
through the object reference; ids are unique, so updating by id is the
same thing). -/
def updateWindowById (windows : List Window) (winId : Nat)
    (f : Window → Window) : List Window :=
  windows.map (fun win => if win.id = winId then f win else win)

/-- `move_frame(false, x, y)`: reposition, keep the size. -/
def moveFrameById (w : World) (winId : Nat) (x y : Int) : World :=
  { w with windows := (updateWindowById w.windows winId
      (fun win => { win with rect := { win.rect with x := x, y := y } })) }

/-- `move_resize_frame(false, x, y, width, height)`. -/
def moveResizeFrameById (w : World) (winId : Nat) (x y wd ht : Int) : World :=
  { w with windows := (updateWindowById w.windows winId
      (fun win => { win with rect := ⟨x, y, wd, ht⟩ })) }

/-- `move_to_monitor(m)`: rewrite the host's monitor association. -/
def moveToMonitorById (w : World) (winId m : Nat) : World :=
  { w with windows := (updateWindowById w.windows winId
      (fun win => { win with assignedMonitor := m })) }

/-- `change_workspace(wsObj)` with a non-null workspace object. -/
def setWorkspaceById (w : World) (winId ws : Nat) : World :=
  { w with windows := (updateWindowById w.windows winId
      (fun win => { win with workspace := some ws })) }

/-- `change_workspace(get_workspace_by_index(ws))` at call sites where
the index is known in range (the engine creates workspaces 0–9 at
enable and only ever targets indices 0–9, so the object is non-null
there). -/
def setWorkspaceIfExists (w : World) (winId ws : Nat) : World :=
  if ws < w.nWorkspaces then setWorkspaceById w winId ws else w

/-- `_ensureWorkspaceExists`: append workspaces until `wsIndex`
exists. -/
def ensureWorkspaceExists (w : World) (wsIndex : Nat) : World :=
  { w with nWorkspaces := max w.nWorkspaces (wsIndex + 1) }

/-- `workspace.activate(...)` via `_activateWorkspaceWithoutAnimation`:
the global workspace changes and the activation is logged.  The
animation-setting juggling and the transient `_isInternalSwitch` flag
(set, then reset by a 100 ms timer before the next quiescent instant)
are not part of the quiescent state. -/
def activateWorkspace (w : World) (ws : Nat) : World :=
  { w with globalWs := ws, activations := w.activations ++ [ws] }

/-! ## Engine operations -/

/-- `_initializeMapping`: the primary monitor inherits the current
global workspace; each other monitor `i` gets `(currentWs + i) % 10`.
(`_ensureWorkspaceExists(9)` is performed by the caller's world.) -/
def initializeMapping (nMonitors primaryMonitor currentWs : Nat)
    (m : List (Nat × Nat)) : List (Nat × Nat) :=
  (List.range nMonitors).foldl
    (fun acc i =>
      if i = primaryMonitor then mset acc i currentWs
      else mset acc i ((currentWs + i) % 10))
    m

/-- `_updateWorkspaceKeybindingSettings`: the modifier prefix string
(`'Super' ? '<Super>' : 'Ctrl' ? '<Control>' : '<Alt>'`). -/
def modKeyOf (modifier : String) : String :=
  if modifier = "Super" then "<Super>"
  else if modifier = "Ctrl" then "<Control>"
  else "<Alt>"

/-- `_updateWorkspaceKeybindingSettings`: the twenty
`set_strv(keyName, [binding])` writes, in program order — first the ten
switch bindings `<mod><(i+1) % 10>`, then the ten move bindings
`<mod><Shift><(i+1) % 10>`. -/
def updateWorkspaceKeybindingSettings (modifier : String) :
    List (String × List String) :=
  let modKey := modKeyOf modifier
  ((List.range 10).map (fun i =>
    ("mmw-switch-ws-" ++ toString i, [modKey ++ toString ((i + 1) % 10)])))
  ++ ((List.range 10).map (fun i =>
    ("mmw-move-ws-" ++ toString i, [modKey ++ "<Shift>" ++ toString ((i + 1) % 10)])))

/-- The window-ordering comparator passed to `windows.sort` — the
identical literal appears in `_cycleFocus` and in
`_swapWindowPosition`: when the two frames' vertical positions differ
by less than 50 pixels compare horizontal positions, otherwise compare
vertical positions. -/
def windowSortCmp (a b : Rect) : Int :=
  if (a.y - b.y).natAbs < 50 then a.x - b.x else a.y - b.y

/-- `_saveWorkspaceWindowPositions`: stash the monitor-relative offset
of every window of workspace `wsIndex`, tagged with `wsIndex`. -/
def saveWorkspaceWindowPositions (d : Display) (monitorIndex wsIndex : Nat)
    (w : World) : World :=
  let geo := geoD d monitorIndex
  (getWindowsOnWorkspace w wsIndex).foldl
    (fun acc win =>
      { acc with savedWindowPositions :=
          (mset acc.savedWindowPositions win.id
            ⟨win.rect.x - geo.x, win.rect.y - geo.y, wsIndex⟩) })
    w

/-- One iteration of the first loop of `_simpleSwitch_Primary`: stash
the window's offset tagged with the previous workspace, then assign the
window to the previous workspace so it hides when the global workspace
changes. -/
def stashStep (geo : Rect) (prevWs : Nat) (acc : World) (win : Window) : World :=
  let acc := { acc with savedWindowPositions :=
      (mset acc.savedWindowPositions win.id
        ⟨win.rect.x - geo.x, win.rect.y - geo.y, prevWs⟩) }
  setWorkspaceIfExists acc win.id prevWs

/-- One iteration of the second loop of `_simpleSwitch_Primary`:
restore a target-workspace window from the cache (consuming the entry)
when it is tagged for the target workspace, else place it at the
quarter-offset default. -/
def restoreStep (geo : Rect) (targetWs : Nat) (acc : World) (winId : Nat) : World :=
  match mget acc.savedWindowPositions winId with
  | some sp =>
    if sp.wsIndex = targetWs then
      let acc := { acc with savedWindowPositions :=
          (mdel acc.savedWindowPositions winId) }
      moveFrameById acc winId (geo.x + sp.relX) (geo.y + sp.relY)
    else
      moveFrameById acc winId (geo.x + geo.width / 4) (geo.y + geo.height / 4)
  | none =>
      moveFrameById acc winId (geo.x + geo.width / 4) (geo.y + geo.height / 4)

/-- `_simpleSwitch_Primary`: stash and hide the monitor's current
windows on the previous workspace, bring the target workspace's windows
back to their stashed (or default) positions, then activate the target
workspace on the host (skipped when the host already activated it). -/
def simpleSwitchPrimary (d : Display) (monitorIndex prevWs targetWs : Nat)
    (skipActivate : Bool) (w : World) : World :=
  let geo := geoD d monitorIndex
  let wins := getWindowsOnMonitor d w.windows monitorIndex false
  let w1 := wins.foldl (stashStep geo prevWs) w
  let targetIds := (getWindowsOnWorkspace w1 targetWs).map Window.id
  let w2 := targetIds.foldl (restoreStep geo targetWs) w1
  if skipActivate then w2 else activateWorkspace w2 targetWs

/-- One iteration of step 1 of `_simpleSwitch_Secondary`: move the
window back onto the primary monitor at the same relative offset
(size preserved; the 50 ms re-apply writes the same values), fix the
monitor association, and tag it with the previous workspace. -/
def secondaryStep1 (primaryGeo geo : Rect) (primaryMonitor prevWs : Nat)
    (acc : World) (win : Window) : World :=
  let acc := moveResizeFrameById acc win.id
    (primaryGeo.x + (win.rect.x - geo.x)) (primaryGeo.y + (win.rect.y - geo.y))
    win.rect.width win.rect.height
  let acc := moveToMonitorById acc win.id primaryMonitor
  setWorkspaceIfExists acc win.id prevWs

/-- One iteration of step 2 of `_simpleSwitch_Secondary`: move a
primary-monitor window of the target workspace onto the secondary
monitor (size preserved), fix the monitor association, and tag it with
the current global workspace so it is visible (sticky on secondary). -/
def secondaryStep2 (primaryGeo geo : Rect) (monitorIndex globalWs : Nat)
    (acc : World) (win : Window) : World :=
  let acc := moveResizeFrameById acc win.id
    (geo.x + (win.rect.x - primaryGeo.x)) (geo.y + (win.rect.y - primaryGeo.y))
    win.rect.width win.rect.height
  let acc := moveToMonitorById acc win.id monitorIndex
  setWorkspaceById acc win.id globalWs

/-- `_simpleSwitch_Secondary`: return the secondary monitor's windows
to the primary monitor tagged with the previous workspace, then pull
the target workspace's windows (including hidden ones) from the primary
monitor onto this monitor, tagged with the global workspace. -/
def simpleSwitchSecondary (d : Display) (monitorIndex prevWs targetWs : Nat)
    (w : World) : World :=
  let geo := geoD d monitorIndex
  let primaryMonitor := d.primary
  let primaryGeo := geoD d primaryMonitor
  let wins := getWindowsOnMonitor d w.windows monitorIndex false
  let w1 := wins.foldl (secondaryStep1 primaryGeo geo primaryMonitor prevWs) w
  let primaryWindows := getWindowsOnMonitor d w1.windows primaryMonitor true
  let targetWsWindows := primaryWindows.filter
    (fun win => decide (win.workspace = some targetWs))
  targetWsWindows.foldl (secondaryStep2 primaryGeo geo monitorIndex w1.globalWs) w1

/-- One window move of `_performSwap` (either direction): place the
window at the destination monitor's matching relative offset with its
size preserved (the 50 ms re-apply writes the same values), fix the
monitor association, and re-tag the workspace only when the destination
is the primary monitor. -/
def swapMoveStep (destGeo : Rect) (destMonitor primaryMonitor : Nat)
    (newGlobalWsObj : Option Nat) (acc : World)
    (info : Nat × Int × Int × Int × Int) : World :=
  let (winId, relX, relY, wd, ht) := info
  let acc := moveResizeFrameById acc winId (destGeo.x + relX) (destGeo.y + relY) wd ht
  let acc := moveToMonitorById acc winId destMonitor
  match newGlobalWsObj with
  | some ws => if destMonitor = primaryMonitor then setWorkspaceById acc winId ws else acc
  | none => acc

/-- `_performSwap`: exchange the two monitors' (visible) window sets by
coordinate, change the global workspace when the primary monitor is
involved (suppressed with `skipActivate`), and swap the two map
entries. -/
def performSwap (d : Display) (monitor1 monitor2 ws1 ws2 : Nat)
    (skipActivate : Bool) (w : World) : World :=
  let primaryMonitor := d.primary
  let windows1 := getWindowsOnMonitor d w.windows monitor1 false
  let windows2 := getWindowsOnMonitor d w.windows monitor2 false
  let geo1 := geoD d monitor1
  let geo2 := geoD d monitor2
  let info1 := windows1.map (fun win =>
    (win.id, win.rect.x - geo1.x, win.rect.y - geo1.y, win.rect.width, win.rect.height))
  let info2 := windows2.map (fun win =>
    (win.id, win.rect.x - geo2.x, win.rect.y - geo2.y, win.rect.width, win.rect.height))
  let primaryInvolved := monitor1 = primaryMonitor ∨ monitor2 = primaryMonitor
  let newGlobalWs :=
    if monitor1 = primaryMonitor then ws2
    else if monitor2 = primaryMonitor then ws1
    else w.globalWs
  let newGlobalWsObj : Option Nat :=
    if monitor1 = primaryMonitor ∨ monitor2 = primaryMonitor then
      (if newGlobalWs < w.nWorkspaces then some newGlobalWs else none)
    else none
  let wa := info1.foldl (swapMoveStep geo2 monitor2 primaryMonitor newGlobalWsObj) w
  let wb := info2.foldl (swapMoveStep geo1 monitor1 primaryMonitor newGlobalWsObj) wa
  let wc :=
    if primaryInvolved ∧ newGlobalWsObj.isSome ∧ ¬ skipActivate
    then activateWorkspace wb newGlobalWs else wb
  { wc with monitorWorkspaceMap :=
      (mset (mset wc.monitorWorkspaceMap monitor1 ws2) monitor2 ws1) }

/-- `_warpPointerToMonitor`, restricted to the modelled state: the
pointer warp, focusing and the indicator update are external effects;
the only mutation of engine state is dropping the per-workspace
last-focused record when that window is no longer on the active
workspace. -/
def warpPointerToMonitorState (d : Display) (monitorIndex : Nat) (w : World) : World :=
  if d.monitors.length ≤ monitorIndex then w
  else
    let wsIndex := (mget w.monitorWorkspaceMap monitorIndex).getD 0
    match mget w.lastWindowPerWorkspace wsIndex with
    | none => w
    | some lastId =>
      match findWindowById w.windows lastId with
      | none => w
      | some win =>
        let isOnActiveWs := locatedOnWorkspace win w.globalWs
        if getWindowMonitor d win = some monitorIndex ∧ isOnActiveWs then w
        else if ¬ isOnActiveWs then
          { w with lastWindowPerWorkspace := mdel w.lastWindowPerWorkspace wsIndex }
        else w

/-- `_focusLastOrAtPosition`, restricted to the modelled state: the
record for `wsIndex` is dropped unless it points at a live window on
the right monitor and active workspace; all focusing and pointer warps
are external effects. -/
def focusLastOrAtPositionState (d : Display) (monitorIndex wsIndex : Nat)
    (w : World) : World :=
  match mget w.lastWindowPerWorkspace wsIndex with
  | none => w
  | some lastId =>
    match findWindowById w.windows lastId with
    | none => { w with lastWindowPerWorkspace := mdel w.lastWindowPerWorkspace wsIndex }
    | some win =>
      if getWindowMonitor d win = some monitorIndex ∧
         locatedOnWorkspace win w.globalWs then w
      else { w with lastWindowPerWorkspace := mdel w.lastWindowPerWorkspace wsIndex }

/-- The simple-switch arm of `_switchWorkspace` together with the map
update and the deferred post-step (`_focusLastOrAtPosition` after
200 ms); the indicator, banner and pointer-restore post-steps touch no
modelled state. -/
def switchSimple (d : Display) (currentMonitor previousWs targetWs : Nat)
    (w : World) : World :=
  let w1 :=
    if currentMonitor = d.primary
    then simpleSwitchPrimary d currentMonitor previousWs targetWs false w
    else simpleSwitchSecondary d currentMonitor previousWs targetWs w
  let w2 := { w1 with monitorWorkspaceMap :=
      (mset w1.monitorWorkspaceMap currentMonitor targetWs) }
  focusLastOrAtPositionState d currentMonitor targetWs w2

/-- `_switchWorkspace`: no-op when the pointer's monitor already shows
the target; warp or swap when another monitor shows it (per the
`workspace-switch-mode` setting, any value other than `"warp"` meaning
swap); otherwise a simple switch on the pointer's monitor. -/
def switchWorkspace (d : Display) (switchMode : String) (px py : Int)
    (targetWs : Nat) (w : World) : World :=
  let currentMonitor := getMonitorAtPointer d px py
  let previousWs := (mget w.monitorWorkspaceMap currentMonitor).getD 0
  if targetWs = previousWs then w
  else
    let w1 := ensureWorkspaceExists w targetWs
    match getMonitorForWorkspace w1.monitorWorkspaceMap targetWs with
    | some existingMonitor =>
      if existingMonitor = currentMonitor then
        switchSimple d currentMonitor previousWs targetWs w1
      else if switchMode = "warp" then
        warpPointerToMonitorState d existingMonitor w1
      else
        focusLastOrAtPositionState d currentMonitor targetWs
          (performSwap d currentMonitor existingMonitor previousWs targetWs false w1)
    | none => switchSimple d currentMonitor previousWs targetWs w1

/-- `_onSystemWorkspaceChanged`: an externally initiated global
workspace change (`isInternal = false`; the handler returns at once for
the engine's own activations) is treated as a switch request on the
primary monitor to the new global index — a swap with the activate
sub-step skipped when the index is displayed on another monitor, else
a stash of the previous workspace's positions plus the map update. -/
def onSystemWorkspaceChanged (d : Display) (isInternal : Bool) (w : World) : World :=
  if isInternal then w
  else
    let targetWs := w.globalWs
    let primaryMonitor := d.primary
    let previousWs := (mget w.monitorWorkspaceMap primaryMonitor).getD 0
    if targetWs = previousWs then w
    else
      match getMonitorForWorkspace w.monitorWorkspaceMap targetWs with
      | some existingMonitor =>
        if existingMonitor = primaryMonitor then
          let w1 := saveWorkspaceWindowPositions d primaryMonitor previousWs w
          { w1 with monitorWorkspaceMap :=
              (mset w1.monitorWorkspaceMap primaryMonitor targetWs) }
        else
          performSwap d primaryMonitor existingMonitor previousWs targetWs true w
      | none =>
        let w1 := saveWorkspaceWindowPositions d primaryMonitor previousWs w
        { w1 with monitorWorkspaceMap :=
            (mset w1.monitorWorkspaceMap primaryMonitor targetWs) }

/-- `_finishWindowPlacement`: drop the pending-placement entry; the
`activate` focus call and the optional pointer warp are external
effects. -/
def finishWindowPlacement (w : World) (winId : Nat) : World :=
  { w with windowsPendingPlacement := mdel w.windowsPendingPlacement winId }

/-- The source-monitor scan of `_moveWindowToMonitor` (first monitor
containing the window's centre, with its geometry). -/
def findSourceMonitor (d : Display) (r : Rect) : Option (Nat × Rect) :=
  ((List.range d.monitors.length).find? (fun i => centerIn r (geoD d i))).map
    (fun i => (i, geoD d i))

/-- `_moveWindowToMonitor` (the deferred idle step of new-window
placement): if the window is already on the target monitor only the
monitor association and workspace are (re)assigned; otherwise the
window is moved to the target monitor at its source-relative offset,
clamped into the target monitor's bounds.  The workspace tag is the
monitor's logical workspace on the primary monitor and the current
global workspace on a secondary monitor.  (The JS `%` fallback for a
window on no monitor is truncated remainder, `Int.tmod`.) -/
def moveWindowToMonitor (d : Display) (winId targetMonitor : Nat) (w : World) : World :=
  match findWindowById w.windows winId with
  | none => { w with windowsPendingPlacement := mdel w.windowsPendingPlacement winId }
  | some win =>
    let logicalWs := (mget w.monitorWorkspaceMap targetMonitor).getD 0
    let primaryMonitor := d.primary
    match d.monitors.get? targetMonitor with
    | none => w
    | some targetGeo =>
      let rect := win.rect
      let src := findSourceMonitor d rect
      if (src.map Prod.fst) = some targetMonitor then
        let w1 := moveToMonitorById w winId targetMonitor
        let w2 :=
          if targetMonitor = primaryMonitor
          then setWorkspaceIfExists w1 winId logicalWs
          else setWorkspaceById w1 winId w1.globalWs
        finishWindowPlacement w2 winId
      else
        let relX := match src with
          | some (_, sgeo) => rect.x - sgeo.x
          | none => Int.tmod rect.x targetGeo.width
        let relY := match src with
          | some (_, sgeo) => rect.y - sgeo.y
          | none => Int.tmod rect.y targetGeo.height
        let newX := max targetGeo.x
          (min (targetGeo.x + relX) (targetGeo.x + targetGeo.width - rect.width))
        let newY := max targetGeo.y
          (min (targetGeo.y + relY) (targetGeo.y + targetGeo.height - rect.height))
        let w1 := moveFrameById w winId newX newY
        let w2 := moveToMonitorById w1 winId targetMonitor
        let w3 :=
          if targetMonitor = primaryMonitor
          then setWorkspaceIfExists w2 winId logicalWs
          else setWorkspaceById w2 winId w2.globalWs
        finishWindowPlacement w3 winId

/-- `_onWindowCreated` followed by its deferred idle
`_moveWindowToMonitor` step (the completed placement).  Non-normal,
non-dialog and taskbar-skipped windows, and windows already marked
recently processed, are skipped.  The pointer position is the one
captured at creation time; the 1000 ms removal from the
recently-processed set has not yet fired when placement completes. -/
def onWindowCreatedPlaced (d : Display) (px py : Int) (winId : Nat)
    (w : World) : World :=
  match findWindowById w.windows winId with
  | none => w
  | some win =>
    if shas w.recentlyProcessedWindows winId then w
    else if ¬ (win.wtype = WinType.normal ∨ win.wtype = WinType.dialog) then w
    else if win.skipTaskbar then w
    else
      let w1 := { w with recentlyProcessedWindows :=
          (sadd w.recentlyProcessedWindows winId) }
      let targetMonitor := getMonitorAtPointer d px py
      let w2 := { w1 with windowsPendingPlacement :=
          (mset w1.windowsPendingPlacement winId targetMonitor) }
      moveWindowToMonitor d winId targetMonitor w2

/-- One saved window of `_restoreWindowsToLogicalWorkspaces`: record
the snapshot entry, move the window to the matching primary-monitor
coordinates, and assign it to the current global workspace (removing
the sticky state). -/
def preDisableStep (primaryGeo geo : Rect) (monitorIndex logicalWs : Nat)
    (acc : World) (win : Window) : World :=
  let relX := win.rect.x - geo.x
  let relY := win.rect.y - geo.y
  let acc := { acc with savedWindowsBeforeDisable :=
      (mset acc.savedWindowsBeforeDisable win.id
        ⟨monitorIndex, logicalWs, relX, relY, win.rect.width, win.rect.height⟩) }
  let acc := moveResizeFrameById acc win.id
    (primaryGeo.x + relX) (primaryGeo.y + relY) win.rect.width win.rect.height
  setWorkspaceById acc win.id acc.globalWs

/-- `_restoreWindowsToLogicalWorkspaces` (run at the start of
`disable()`): clear the snapshot, then for every secondary monitor save
each of its windows into the snapshot and move it onto the primary
monitor on the current global workspace. -/
def restoreWindowsToLogicalWorkspaces (d : Display) (w : World) : World :=
  let primaryMonitor := d.primary
  let primaryGeo := geoD d primaryMonitor
  let w0 := { w with savedWindowsBeforeDisable := [] }
  (List.range d.monitors.length).foldl
    (fun acc monitorIndex =>
      if monitorIndex = primaryMonitor then acc
      else
        let geo := geoD d monitorIndex
        let logicalWs := (mget acc.monitorWorkspaceMap monitorIndex).getD 0
        (getWindowsOnMonitor d acc.windows monitorIndex false).foldl
          (preDisableStep primaryGeo geo monitorIndex logicalWs) acc)
    w0

/-- `disable()`, restricted to the modelled state: relocate and
snapshot the secondary windows, then clear the monitor↔workspace map,
the recently-processed set and the pending-placement set.  The
relative-position cache, the snapshot and the focus history are
explicitly not cleared (signal/keybinding/widget teardown is
external). -/
def disableOp (d : Display) (w : World) : World :=
  let w1 := restoreWindowsToLogicalWorkspaces d w
  { w1 with
      monitorWorkspaceMap := [],
      recentlyProcessedWindows := [],
      windowsPendingPlacement := [] }

/-- `_restoreSavedSecondaryWindows`, restricted to its
monitor↔workspace-map effect (lines 1637–1644): each snapshot entry
re-asserts its monitor's saved logical workspace; the snapshot is then
cleared. -/
def restoreSavedSecondaryWindowsMapUpdate (w : World) : World :=
  let m := w.savedWindowsBeforeDisable.foldl
    (fun acc p => mset acc p.2.monitorIndex p.2.logicalWs)
    w.monitorWorkspaceMap
  { w with monitorWorkspaceMap := m, savedWindowsBeforeDisable := [] }

/-! ## Reachability of the monitor↔workspace map and its invariant -/

/-- "No two distinct monitors are mapped to the same workspace". -/
def noDuplicateWorkspace (m : List (Nat × Nat)) : Prop :=
  ∀ a b wa wb, mget m a = some wa → mget m b = some wb → a ≠ b → wa ≠ wb

/-- The keys of the association list are pairwise distinct (true of
every JavaScript `Map`). -/
def keysNodup {α : Type} (m : List (Nat × α)) : Prop :=
  (m.map Prod.fst).Nodup

/-- Every monitor of the layout has a map entry (established by
`_initializeMapping` and never removed). -/
def totalOn (m : List (Nat × Nat)) (n : Nat) : Prop :=
  ∀ i, i < n → (mget m i).isSome = true

/-- The combined well-formedness invariant of the map. -/
def MapInv (m : List (Nat × Nat)) (n : Nat) : Prop :=
  noDuplicateWorkspace m ∧ keysNodup m ∧ totalOn m n

/-- Every map entry's key is a monitor of the layout (the engine only
ever writes entries at monitor indices). -/
def boundedKeys (m : List (Nat × Nat)) (n : Nat) : Prop :=
  ∀ k v, mget m k = some v → k < n

/-- `MapInv` together with `boundedKeys`: the full inductive
well-formedness carried through the reachability proof. -/
def MapWF (m : List (Nat × Nat)) (n : Nat) : Prop :=
  MapInv m n ∧ boundedKeys m n

/-- Quiescent states reachable on a fixed monitor layout `d`: a mapping
initialization with primary-monitor index 0 (what the amended claim
requires), followed by any number of switch operations (no-op, warp,
swap or simple switch) and externally or internally triggered global
workspace changes.  Monitor hot-plug re-initialization clears the map
and runs `_initializeMapping` again, which is the `init` case on the
new layout. -/
inductive EngineReach (d : Display) : World → Prop where
  | init : ∀ (w : World) (cw : Nat), cw < 10 → d.monitors.length ≤ 10 →
      d.primary = 0 →
      w.monitorWorkspaceMap
        = initializeMapping d.monitors.length d.primary cw [] →
      EngineReach d w
  | switchStep : ∀ (w : World) (mode : String) (px py : Int) (t : Nat),
      EngineReach d w → EngineReach d (switchWorkspace d mode px py t w)
  | externalStep : ∀ (w : World) (b : Bool),
      EngineReach d w → EngineReach d (onSystemWorkspaceChanged d b w)

/-! ## Claim-statement vocabulary and concrete instances

`specBandRaster` is the one spec-side definition (for the refinement
comparison of C6); everything else above is translated from the
source.  The concrete displays/worlds below instantiate theorems at
explicit inputs. -/

/-- Modelled from the spec: "windows are sorted by vertical position
bucketed into 50-pixel bands (ties broken by band), then horizontal
position ascending".  `a` precedes `b` when `a`'s 50-pixel band is
lower, or the bands coincide and `a` is further left. -/
def specBandRasterBefore (a b : Rect) : Prop :=
  a.y / 50 < b.y / 50 ∨ (a.y / 50 = b.y / 50 ∧ a.x < b.x)

instance (a b : Rect) : Decidable (specBandRasterBefore a b) := by
  unfold specBandRasterBefore; infer_instance

/-- "The window's frame lies within the monitor's bounds". -/
def frameWithin (r geo : Rect) : Prop :=
  geo.x ≤ r.x ∧ geo.y ≤ r.y ∧
  r.x + r.width ≤ geo.x + geo.width ∧ r.y + r.height ≤ geo.y + geo.height

instance (r geo : Rect) : Decidable (frameWithin r geo) := by
  unfold frameWithin; infer_instance

/-- A one-monitor layout: M0 = (0,0,100,100), primary. -/
def exDisplay1 : Display := ⟨[⟨0, 0, 100, 100⟩], 0⟩

/-- A two-monitor layout: M0 = (0,0,100,100) primary,
M1 = (100,0,100,100). -/
def exDisplay2 : Display := ⟨[⟨0, 0, 100, 100⟩, ⟨100, 0, 100, 100⟩], 0⟩

/-- A freshly initialized two-monitor world (primary monitor 0, global
workspace 3): the state `enable` produces on `exDisplay2`. -/
def exC1World : World :=
  { windows := [], nWorkspaces := 10, globalWs := 3,
    monitorWorkspaceMap := initializeMapping 2 0 3 [],
    savedWindowPositions := [], windowsPendingPlacement := [],
    savedWindowsBeforeDisable := [], lastWindowPerWorkspace := [],
    recentlyProcessedWindows := [], activations := [] }

/-- A normal, visible window protruding past M0's left edge (its centre
(10, 20) is on M0). -/
def exProtrudingWindow : Window :=
  ⟨1, ⟨-30, 10, 80, 20⟩, some 2, WinType.normal, false, false, false, 0⟩

/-- World for the C5 counterexample: the pointer's monitor M0 maps to
workspace 2 and `exProtrudingWindow` has just been created on it. -/
def exC5World : World :=
  ⟨[exProtrudingWindow], 10, 2, [(0, 2)], [], [], [], [], [], []⟩

/-- A normal window fully inside M1. -/
def exInnerWindow : Window :=
  ⟨1, ⟨120, 10, 50, 20⟩, some 2, WinType.normal, false, false, false, 1⟩

/-- World for the C5 witness: M0 (primary, pointer) maps to workspace 2,
the fresh window sits on M1 and must be pulled onto M0. -/
def exC5WitnessWorld : World :=
  ⟨[exInnerWindow], 10, 2, [(0, 2), (1, 5)], [], [], [], [], [], []⟩

/-- World for the C2 witness: M0 already displays workspace 2. -/
def exC2World : World :=
  ⟨[exProtrudingWindow], 10, 2, [(0, 2)], [], [], [], [], [], []⟩

/-- World for the C4 witness: M0 displays workspace 1, M1 displays
workspace 2. -/
def exC4World : World :=
  ⟨[], 10, 1, [(0, 1), (1, 2)], [], [], [], [], [], []⟩

/-- A hidden normal window of workspace 7 whose position was stashed
for workspace 7 with offset (12, 34). -/
def exStashedWindow : Window :=
  ⟨9, ⟨0, 0, 40, 40⟩, some 7, WinType.normal, true, false, false, 0⟩

/-- World for the C3 witness: the cache holds (12, 34) for window 9
tagged with workspace 7. -/
def exC3World : World :=
  ⟨[exStashedWindow], 10, 0, [(0, 0)], [(9, ⟨12, 34, 7⟩)], [], [], [], [], []⟩

/-- World for the C7 witness: the host's global workspace has just been
changed externally to 4, which M1 already displays; M0 (primary)
displays 1. -/
def exC7World : World :=
  ⟨[], 10, 4, [(0, 1), (1, 4)], [], [], [], [], [], []⟩

/-- World for the C9 counterexample: a stale snapshot entry for window
5 survives from an earlier teardown, and no window is present on any
secondary monitor. -/
def exC9World : World :=
  ⟨[], 10, 0, [(0, 0), (1, 3)], [], [], [(5, ⟨1, 3, 0, 0, 100, 100⟩)], [], [], []⟩

/-! ## Shared lemmas about the map and window primitives -/

theorem mget_mdel_self {α : Type} (m : List (Nat × α)) (k : Nat) :
    mget (mdel m k) k = none := by
  unfold mget mdel
  induction m with
  | nil => rfl
  | cons p t ih =>
    simp only [List.filter_cons]
    by_cases hp : p.1 = k
    · rw [if_neg (by simp [hp])]
      exact ih
    · rw [if_pos (by simp [hp])]
      rw [List.find?_cons_of_neg _ (by simpa using hp)]
      exact ih

theorem mget_mdel_ne {α : Type} (m : List (Nat × α)) (k k' : Nat)
    (h : k' ≠ k) : mget (mdel m k) k' = mget m k' := by
  unfold mget mdel
  induction m with
  | nil => rfl
  | cons p t ih =>
    simp only [List.filter_cons]
    by_cases hp : p.1 = k
    · have hp' : ¬ p.1 = k' := by rw [hp]; exact Ne.symm h
      rw [if_neg (by simp [hp])]
      rw [List.find?_cons_of_neg _ (by simpa using hp')]
      exact ih
    · rw [if_pos (by simp [hp])]
      by_cases hp' : p.1 = k'
      · rw [List.find?_cons_of_pos _ (by simpa using hp'),
            List.find?_cons_of_pos _ (by simpa using hp')]
      · rw [List.find?_cons_of_neg _ (by simpa using hp'),
            List.find?_cons_of_neg _ (by simpa using hp')]
        exact ih

/-- A fold preserves any property its step preserves. -/
theorem foldl_preserve {α β : Type} (f : β → α → β) (P : β → Prop)
    (h : ∀ b a, P b → P (f b a)) :
    ∀ (l : List α) (b : β), P b → P (l.foldl f b) := by
  intro l
  induction l with
  | nil => intro b hb; exact hb
  | cons a t ih => intro b hb; exact ih _ (h b a hb)

theorem findWindowById_update_self (l : List Window) (winId : Nat)
    (f : Window → Window) (hf : ∀ win, (f win).id = win.id) :
    findWindowById (updateWindowById l winId f) winId
      = (findWindowById l winId).map f := by
  unfold findWindowById updateWindowById
  induction l with
  | nil => rfl
  | cons win t ih =>
    by_cases hw : win.id = winId
    · simp only [List.map_cons, if_pos hw]
      rw [List.find?_cons_of_pos _ (by simpa using (hf win).trans hw),
          List.find?_cons_of_pos _ (by simpa using hw)]
      simp
    · simp only [List.map_cons, if_neg hw]
      rw [List.find?_cons_of_neg _ (by simpa using hw),
          List.find?_cons_of_neg _ (by simpa using hw)]
      exact ih

theorem findWindowById_update_ne (l : List Window) (winId winId' : Nat)
    (f : Window → Window) (hf : ∀ win, (f win).id = win.id)
    (h : winId' ≠ winId) :
    findWindowById (updateWindowById l winId f) winId'
      = findWindowById l winId' := by
  unfold findWindowById updateWindowById
  induction l with
  | nil => rfl
  | cons win t ih =>
    by_cases hw : win.id = winId
    · have hw' : ¬ win.id = winId' := by rw [hw]; exact Ne.symm h
      have hfw : ¬ (f win).id = winId' := by rw [hf win, hw]; exact Ne.symm h
      simp only [List.map_cons, if_pos hw]
      rw [List.find?_cons_of_neg _ (by simpa using hfw),
          List.find?_cons_of_neg _ (by simpa using hw')]
      exact ih
    · simp only [List.map_cons, if_neg hw]
      by_cases hw' : win.id = winId'
      · rw [List.find?_cons_of_pos _ (by simpa using hw'),
            List.find?_cons_of_pos _ (by simpa using hw')]
      · rw [List.find?_cons_of_neg _ (by simpa using hw'),
            List.find?_cons_of_neg _ (by simpa using hw')]
        exact ih

/-- Updating one window keeps the id sequence of the list. -/
theorem updateWindowById_ids (l : List Window) (winId : Nat)
    (f : Window → Window) (hf : ∀ win, (f win).id = win.id) :
    (updateWindowById l winId f).map Window.id = l.map Window.id := by
  unfold updateWindowById
  induction l with
  | nil => rfl
  | cons win t ih =>
    by_cases hw : win.id = winId
    · simp only [List.map_cons, if_pos hw]
      rw [hf win, ih]
    · simp only [List.map_cons, if_neg hw]
      rw [ih]

/-- A window other than the updated one stays in the list unchanged. -/
theorem mem_updateWindowById_of_ne (l : List Window) (winId : Nat)
    (f : Window → Window) (win : Window) (hm : win ∈ l)
    (h : win.id ≠ winId) : win ∈ updateWindowById l winId f := by
  unfold updateWindowById
  have : win = if win.id = winId then f win else win := by simp [h]
  rw [this]
  exact List.mem_map_of_mem _ hm

theorem findWindowById_mem {l : List Window} {winId : Nat} {win : Window}
    (h : findWindowById l winId = some win) : win ∈ l :=
  List.mem_of_find?_eq_some h

theorem findWindowById_id {l : List Window} {winId : Nat} {win : Window}
    (h : findWindowById l winId = some win) : win.id = winId := by
  have := List.find?_some h
  simpa using this

/-! ## C10: totality of the monitor-at-pointer lookup -/

/-- C10: `_getMonitorAtPointer` is total: it always returns a valid
monitor index (assuming the host's primary-monitor index is valid,
which `get_primary_monitor` guarantees), and when the pointer lies in
no monitor's rectangle it returns the primary monitor's index. -/
theorem c10_monitor_at_pointer_total (d : Display) (px py : Int)
    (h : d.primary < d.monitors.length) :
    getMonitorAtPointer d px py < d.monitors.length ∧
    ((∀ i, i < d.monitors.length → ptIn px py (geoD d i) = false) →
      getMonitorAtPointer d px py = d.primary) := by
  constructor
  · unfold getMonitorAtPointer
    cases hf : (List.range d.monitors.length).find? (fun i => ptIn px py (geoD d i)) with
    | none => simpa using h
    | some i =>
      have hm := List.mem_of_find?_eq_some hf
      simpa [List.mem_range] using hm
  · intro hnone
    unfold getMonitorAtPointer
    have hf : (List.range d.monitors.length).find? (fun i => ptIn px py (geoD d i)) = none := by
      apply List.find?_eq_none.mpr
      intro i hi
      simp only [List.mem_range] at hi
      simp [hnone i hi]
    rw [hf]

/-- C10 witness: a pointer far outside the single 100×100 monitor is
resolved to the primary monitor, a valid index. -/
theorem c10_monitor_at_pointer_total_witness :
    getMonitorAtPointer exDisplay1 500 500 < exDisplay1.monitors.length ∧
    ((∀ i, i < exDisplay1.monitors.length → ptIn 500 500 (geoD exDisplay1 i) = false) →
      getMonitorAtPointer exDisplay1 500 500 = exDisplay1.primary) :=
  c10_monitor_at_pointer_total exDisplay1 500 500 (by decide)

/-! ## C8: modifier keybinding rewrite -/

/-- C8: for each modifier in {Alt, Super, Ctrl} and each workspace
index i in 0..9, `_updateWorkspaceKeybindingSettings` writes the switch
binding `<modifier>` + digit `(i+1) % 10` and the move binding
`<modifier><Shift>` + the same digit; exactly the twenty bindings (ten
switch, ten move) are written. -/
theorem c8_keybinding_rewrite (modifier : String) (i : Nat)
    (hm : modifier = "Alt" ∨ modifier = "Super" ∨ modifier = "Ctrl")
    (hi : i < 10) :
    ((updateWorkspaceKeybindingSettings modifier).lookup
        ("mmw-switch-ws-" ++ toString i)
      = some [modKeyOf modifier ++ toString ((i + 1) % 10)]) ∧
    ((updateWorkspaceKeybindingSettings modifier).lookup
        ("mmw-move-ws-" ++ toString i)
      = some [modKeyOf modifier ++ "<Shift>" ++ toString ((i + 1) % 10)]) ∧
    (updateWorkspaceKeybindingSettings modifier).length = 20 := by
  interval_cases i <;> rcases hm with rfl | rfl | rfl <;> decide

/-- C8 witness: the Super setting rewrites workspace 9's switch binding
to `<Super>0` and its move binding to `<Super><Shift>0`. -/
theorem c8_keybinding_rewrite_witness :
    ((updateWorkspaceKeybindingSettings "Super").lookup
        ("mmw-switch-ws-" ++ toString 9)
      = some [modKeyOf "Super" ++ toString ((9 + 1) % 10)]) ∧
    ((updateWorkspaceKeybindingSettings "Super").lookup
        ("mmw-move-ws-" ++ toString 9)
      = some [modKeyOf "Super" ++ "<Shift>" ++ toString ((9 + 1) % 10)]) ∧
    (updateWorkspaceKeybindingSettings "Super").length = 20 :=
  c8_keybinding_rewrite "Super" 9 (Or.inr (Or.inl rfl)) (by decide)

/-! ## C6: the window-ordering comparator -/

/-- C6 counterexample: the claim says the comparator induces exactly
the 50-pixel-band raster order.  At frames (100, 49) and (0, 50) the
band order puts the first window before the second (band 0 before band
1), but the comparator, seeing a vertical distance of 1 < 50, compares
horizontal positions and orders the first window after the second. -/
theorem c6_window_order_counterexample :
    specBandRasterBefore ⟨100, 49, 10, 10⟩ ⟨0, 50, 10, 10⟩ ∧
    0 < windowSortCmp ⟨100, 49, 10, 10⟩ ⟨0, 50, 10, 10⟩ := by decide

/-- C6 amended: the comparator shared by cycle-focus and
swap-window-position orders two windows by horizontal position when
their vertical positions differ by fewer than 50 pixels and by vertical
position otherwise — a pairwise proximity tie-break, not bucketing into
fixed 50-pixel bands (in particular it is not transitive, witnessed by
the chain (0,100), (1,60), (2,20)). -/
theorem c6_window_order_amended :
    (∀ a b : Rect,
      ((a.y - b.y).natAbs < 50 → windowSortCmp a b = a.x - b.x) ∧
      (50 ≤ (a.y - b.y).natAbs → windowSortCmp a b = a.y - b.y)) ∧
    (windowSortCmp ⟨0, 100, 10, 10⟩ ⟨1, 60, 10, 10⟩ < 0 ∧
     windowSortCmp ⟨1, 60, 10, 10⟩ ⟨2, 20, 10, 10⟩ < 0 ∧
     0 < windowSortCmp ⟨0, 100, 10, 10⟩ ⟨2, 20, 10, 10⟩) := by
  constructor
  · intro a b
    constructor
    · intro h
      simp [windowSortCmp, h]
    · intro h
      rw [windowSortCmp, if_neg (by omega)]
  · decide

/-- C6 witness: the comparator at frames (5, 10) and (2, 20), which are
vertically 10 < 50 apart, compares horizontal positions. -/
theorem c6_window_order_amended_witness :
    windowSortCmp ⟨5, 10, 10, 10⟩ ⟨2, 20, 10, 10⟩ = 5 - 2 :=
  (c6_window_order_amended.1 ⟨5, 10, 10, 10⟩ ⟨2, 20, 10, 10⟩).1 (by decide)

/-! ## Projection lemmas for `_performSwap` -/

theorem swapMoveStep_proj (g : Rect) (dm pm : Nat) (o : Option Nat)
    (acc : World) (info : Nat × Int × Int × Int × Int) :
    ((swapMoveStep g dm pm o acc info).monitorWorkspaceMap
        = acc.monitorWorkspaceMap) ∧
    ((swapMoveStep g dm pm o acc info).activations = acc.activations) ∧
    ((swapMoveStep g dm pm o acc info).globalWs = acc.globalWs) ∧
    ((swapMoveStep g dm pm o acc info).nWorkspaces = acc.nWorkspaces) ∧
    ((swapMoveStep g dm pm o acc info).savedWindowPositions
        = acc.savedWindowPositions) ∧
    ((swapMoveStep g dm pm o acc info).windowsPendingPlacement
        = acc.windowsPendingPlacement) ∧
    ((swapMoveStep g dm pm o acc info).savedWindowsBeforeDisable
        = acc.savedWindowsBeforeDisable) ∧
    ((swapMoveStep g dm pm o acc info).lastWindowPerWorkspace
        = acc.lastWindowPerWorkspace) ∧
    ((swapMoveStep g dm pm o acc info).recentlyProcessedWindows
        = acc.recentlyProcessedWindows) := by
  rcases info with ⟨i, rx, ry, wd, ht⟩
  unfold swapMoveStep moveResizeFrameById moveToMonitorById setWorkspaceById
  cases o with
  | none => simp
  | some ws => by_cases hdm : dm = pm <;> simp [hdm]

theorem foldl_swapMoveStep_map (g : Rect) (dm pm : Nat) (o : Option Nat)
    (l : List (Nat × Int × Int × Int × Int)) (acc : World) :
    (l.foldl (swapMoveStep g dm pm o) acc).monitorWorkspaceMap
      = acc.monitorWorkspaceMap :=
  foldl_preserve _ (fun x => x.monitorWorkspaceMap = acc.monitorWorkspaceMap)
    (fun b a hb => ((swapMoveStep_proj g dm pm o b a).1).trans hb) l acc rfl

theorem foldl_swapMoveStep_activations (g : Rect) (dm pm : Nat) (o : Option Nat)
    (l : List (Nat × Int × Int × Int × Int)) (acc : World) :
    (l.foldl (swapMoveStep g dm pm o) acc).activations = acc.activations :=
  foldl_preserve _ (fun x => x.activations = acc.activations)
    (fun b a hb => ((swapMoveStep_proj g dm pm o b a).2.1).trans hb) l acc rfl

theorem foldl_swapMoveStep_globalWs (g : Rect) (dm pm : Nat) (o : Option Nat)
    (l : List (Nat × Int × Int × Int × Int)) (acc : World) :
    (l.foldl (swapMoveStep g dm pm o) acc).globalWs = acc.globalWs :=
  foldl_preserve _ (fun x => x.globalWs = acc.globalWs)
    (fun b a hb => ((swapMoveStep_proj g dm pm o b a).2.2.1).trans hb) l acc rfl

/-- The optional activation step never touches the map. -/
theorem map_ite_activate (C : Prop) [Decidable C] (wb : World) (n : Nat) :
    (if C then activateWorkspace wb n else wb).monitorWorkspaceMap
      = wb.monitorWorkspaceMap := by
  split <;> simp [activateWorkspace]

/-- The monitor↔workspace map after `_performSwap` is exactly the two
swapped entries written into the previous map. -/
theorem performSwap_map (d : Display) (m1 m2 ws1 ws2 : Nat) (s : Bool) (w : World) :
    (performSwap d m1 m2 ws1 ws2 s w).monitorWorkspaceMap
      = mset (mset w.monitorWorkspaceMap m1 ws2) m2 ws1 := by
  unfold performSwap
  simp only []
  rw [map_ite_activate, foldl_swapMoveStep_map, foldl_swapMoveStep_map]

/-! ## C2: switching to the already-displayed workspace is a no-op -/

/-- C2: when the monitor under the pointer already maps to the target
workspace, `_switchWorkspace` returns before any mutation: no window is
moved, resized or re-assigned and no map entry changes (the whole
modelled state is untouched). -/
theorem c2_switch_noop (d : Display) (switchMode : String) (px py : Int)
    (monitorIndex targetWs : Nat) (w : World)
    (hM : getMonitorAtPointer d px py = monitorIndex)
    (h : mget w.monitorWorkspaceMap monitorIndex = some targetWs) :
    switchWorkspace d switchMode px py targetWs w = w := by
  subst hM
  unfold switchWorkspace
  simp [h]

/-- C2 witness: with the pointer on M0 (which maps to workspace 2), a
switch to workspace 2 leaves the world unchanged. -/
theorem c2_switch_noop_witness :
    switchWorkspace exDisplay1 "swap" 50 50 2 exC2World = exC2World :=
  c2_switch_noop exDisplay1 "swap" 50 50 0 2 exC2World (by decide) (by decide)

/-! ## C4: swap involution on the map -/

/-- C4: for distinct monitors M1, M2 displaying W1, W2, performing the
swap twice in succession (the second swap's workspace arguments are the
ones the first swap wrote) returns every entry of the
monitor-to-workspace map to its pre-swap value. -/
theorem c4_swap_involution (d : Display) (m1 m2 ws1 ws2 : Nat) (w : World)
    (hne : m1 ≠ m2)
    (h1 : mget w.monitorWorkspaceMap m1 = some ws1)
    (h2 : mget w.monitorWorkspaceMap m2 = some ws2) :
    ∀ m, mget (performSwap d m1 m2 ws2 ws1 false
        (performSwap d m1 m2 ws1 ws2 false w)).monitorWorkspaceMap m
      = mget w.monitorWorkspaceMap m := by
  intro m
  rw [performSwap_map, performSwap_map]
  by_cases hm2 : m = m2
  · subst hm2
    rw [mget_mset_self, h2]
  · rw [mget_mset_ne _ _ _ _ hm2]
    by_cases hm1 : m = m1
    · subst hm1
      rw [mget_mset_self, h1]
    · rw [mget_mset_ne _ _ _ _ hm1, mget_mset_ne _ _ _ _ hm2,
          mget_mset_ne _ _ _ _ hm1]

/-- C4 witness: with M0 showing workspace 1 and M1 showing workspace 2,
a double swap restores both entries (checked at every monitor of the
layout). -/
theorem c4_swap_involution_witness :
    mget (performSwap exDisplay2 0 1 2 1 false
        (performSwap exDisplay2 0 1 1 2 false exC4World)).monitorWorkspaceMap 0
      = mget exC4World.monitorWorkspaceMap 0 ∧
    mget (performSwap exDisplay2 0 1 2 1 false
        (performSwap exDisplay2 0 1 1 2 false exC4World)).monitorWorkspaceMap 1
      = mget exC4World.monitorWorkspaceMap 1 :=
  ⟨c4_swap_involution exDisplay2 0 1 1 2 exC4World (by decide) (by decide) (by decide) 0,
   c4_swap_involution exDisplay2 0 1 1 2 exC4World (by decide) (by decide) (by decide) 1⟩

/-! ## C9: what `disable()` clears and preserves -/

theorem preDisableStep_proj (pg g : Rect) (mi lws : Nat) (acc : World) (win : Window) :
    ((preDisableStep pg g mi lws acc win).savedWindowPositions
        = acc.savedWindowPositions) ∧
    ((preDisableStep pg g mi lws acc win).lastWindowPerWorkspace
        = acc.lastWindowPerWorkspace) := by
  unfold preDisableStep moveResizeFrameById setWorkspaceById
  simp

theorem restoreWindowsToLogicalWorkspaces_proj (d : Display) (w : World) :
    ((restoreWindowsToLogicalWorkspaces d w).savedWindowPositions
        = w.savedWindowPositions) ∧
    ((restoreWindowsToLogicalWorkspaces d w).lastWindowPerWorkspace
        = w.lastWindowPerWorkspace) := by
  unfold restoreWindowsToLogicalWorkspaces
  simp only []
  refine foldl_preserve _
    (fun x : World => x.savedWindowPositions = w.savedWindowPositions ∧
      x.lastWindowPerWorkspace = w.lastWindowPerWorkspace) ?_ _ _ ⟨rfl, rfl⟩
  intro b a hb
  by_cases hp : a = d.primary
  · simpa [hp] using hb
  · simp only [if_neg hp]
    refine foldl_preserve _
      (fun x : World => x.savedWindowPositions = w.savedWindowPositions ∧
        x.lastWindowPerWorkspace = w.lastWindowPerWorkspace) ?_ _ _ hb
    intro b2 a2 hb2
    exact ⟨((preDisableStep_proj _ _ _ _ b2 a2).1).trans hb2.1,
           ((preDisableStep_proj _ _ _ _ b2 a2).2).trans hb2.2⟩

/-- C9 counterexample: the claim says the pre-disable window snapshot
is left unchanged by `disable()`.  With a stale snapshot entry for
window 5 and no secondary-monitor windows present, `disable()`
rewrites the snapshot (here: to empty), so it is not unchanged. -/
theorem c9_disable_counterexample :
    (disableOp exDisplay2 exC9World).savedWindowsBeforeDisable
      ≠ exC9World.savedWindowsBeforeDisable := by decide

/-- C9 amended: `disable()` clears the monitor-to-workspace map, the
pending-placement set and the recently-processed-window set; it leaves
the relative-position cache and the per-workspace focus history
unchanged; and it rewrites the pre-disable window snapshot from the
currently present secondary-monitor windows (the result is independent
of the snapshot's previous contents) rather than leaving it
unchanged. -/
theorem c9_disable_amended (d : Display) (w : World) :
    (disableOp d w).monitorWorkspaceMap = [] ∧
    (disableOp d w).windowsPendingPlacement = [] ∧
    (disableOp d w).recentlyProcessedWindows = [] ∧
    (disableOp d w).savedWindowPositions = w.savedWindowPositions ∧
    (disableOp d w).lastWindowPerWorkspace = w.lastWindowPerWorkspace ∧
    (disableOp d w).savedWindowsBeforeDisable
      = (disableOp d { w with savedWindowsBeforeDisable := [] }).savedWindowsBeforeDisable := by
  refine ⟨rfl, rfl, rfl, ?_, ?_, rfl⟩
  · exact (restoreWindowsToLogicalWorkspaces_proj d w).1
  · exact (restoreWindowsToLogicalWorkspaces_proj d w).2

/-! ## C7: external workspace change reuses the swap, minus activate -/

theorem fields_ite_activate (C : Prop) [Decidable C] (wb : World) (n : Nat) :
    ((if C then activateWorkspace wb n else wb).windows = wb.windows) ∧
    ((if C then activateWorkspace wb n else wb).savedWindowPositions
        = wb.savedWindowPositions) ∧
    ((if C then activateWorkspace wb n else wb).windowsPendingPlacement
        = wb.windowsPendingPlacement) ∧
    ((if C then activateWorkspace wb n else wb).savedWindowsBeforeDisable
        = wb.savedWindowsBeforeDisable) ∧
    ((if C then activateWorkspace wb n else wb).lastWindowPerWorkspace
        = wb.lastWindowPerWorkspace) ∧
    ((if C then activateWorkspace wb n else wb).recentlyProcessedWindows
        = wb.recentlyProcessedWindows) ∧
    ((if C then activateWorkspace wb n else wb).nWorkspaces = wb.nWorkspaces) := by
  split <;> simp [activateWorkspace]

/-- All components except the global workspace and the activation log
are independent of `_performSwap`'s `skipActivate` flag. -/
theorem performSwap_skip_invariant (d : Display) (m1 m2 ws1 ws2 : Nat) (w : World) :
    ((performSwap d m1 m2 ws1 ws2 true w).windows
        = (performSwap d m1 m2 ws1 ws2 false w).windows) ∧
    ((performSwap d m1 m2 ws1 ws2 true w).monitorWorkspaceMap
        = (performSwap d m1 m2 ws1 ws2 false w).monitorWorkspaceMap) ∧
    ((performSwap d m1 m2 ws1 ws2 true w).savedWindowPositions
        = (performSwap d m1 m2 ws1 ws2 false w).savedWindowPositions) ∧
    ((performSwap d m1 m2 ws1 ws2 true w).windowsPendingPlacement
        = (performSwap d m1 m2 ws1 ws2 false w).windowsPendingPlacement) ∧
    ((performSwap d m1 m2 ws1 ws2 true w).savedWindowsBeforeDisable
        = (performSwap d m1 m2 ws1 ws2 false w).savedWindowsBeforeDisable) ∧
    ((performSwap d m1 m2 ws1 ws2 true w).lastWindowPerWorkspace
        = (performSwap d m1 m2 ws1 ws2 false w).lastWindowPerWorkspace) ∧
    ((performSwap d m1 m2 ws1 ws2 true w).recentlyProcessedWindows
        = (performSwap d m1 m2 ws1 ws2 false w).recentlyProcessedWindows) ∧
    ((performSwap d m1 m2 ws1 ws2 true w).nWorkspaces
        = (performSwap d m1 m2 ws1 ws2 false w).nWorkspaces) := by
  unfold performSwap
  simp only []
  refine ⟨?_, ?_, ?_, ?_, ?_, ?_, ?_, ?_⟩
  · rw [(fields_ite_activate _ _ _).1, (fields_ite_activate _ _ _).1]
  · rw [map_ite_activate, map_ite_activate]
  · rw [(fields_ite_activate _ _ _).2.1, (fields_ite_activate _ _ _).2.1]
  · rw [(fields_ite_activate _ _ _).2.2.1, (fields_ite_activate _ _ _).2.2.1]
  · rw [(fields_ite_activate _ _ _).2.2.2.1, (fields_ite_activate _ _ _).2.2.2.1]
  · rw [(fields_ite_activate _ _ _).2.2.2.2.1, (fields_ite_activate _ _ _).2.2.2.2.1]
  · rw [(fields_ite_activate _ _ _).2.2.2.2.2.1, (fields_ite_activate _ _ _).2.2.2.2.2.1]
  · rw [(fields_ite_activate _ _ _).2.2.2.2.2.2, (fields_ite_activate _ _ _).2.2.2.2.2.2]

/-- With `skipActivate` the activation log is untouched. -/
theorem performSwap_true_activations (d : Display) (m1 m2 ws1 ws2 : Nat) (w : World) :
    (performSwap d m1 m2 ws1 ws2 true w).activations = w.activations := by
  unfold performSwap
  simp only []
  rw [if_neg (by simp)]
  rw [foldl_swapMoveStep_activations, foldl_swapMoveStep_activations]

/-- With `skipActivate` the global workspace is untouched. -/
theorem performSwap_true_globalWs (d : Display) (m1 m2 ws1 ws2 : Nat) (w : World) :
    (performSwap d m1 m2 ws1 ws2 true w).globalWs = w.globalWs := by
  unfold performSwap
  simp only []
  rw [if_neg (by simp)]
  rw [foldl_swapMoveStep_globalWs, foldl_swapMoveStep_globalWs]

/-- Without `skipActivate`, a primary-involved swap issues exactly one
host activation, of the workspace the primary monitor will now show. -/
theorem performSwap_false_activations_primary (d : Display) (m2 ws1 ws2 : Nat)
    (w : World) (hws : ws2 < w.nWorkspaces) :
    (performSwap d d.primary m2 ws1 ws2 false w).activations
      = w.activations ++ [ws2] := by
  unfold performSwap
  simp only []
  rw [if_pos (by simp [hws])]
  simp only [activateWorkspace, if_pos rfl, if_true]
  rw [foldl_swapMoveStep_activations, foldl_swapMoveStep_activations]

/-- C7: when the host's global workspace changes to an index already
displayed on another monitor M2 ≠ primary without the engine having
initiated it, the handler performs exactly
`_performSwap(primary, M2, previous, target, skipActivate := true)` —
and that differs from the internally initiated swap
(`skipActivate := false`) only in the skipped host activation: windows,
map and every other engine structure agree, no activation is logged,
and the global workspace (already switched by the host) is left
alone. -/
theorem c7_external_change_swap (d : Display) (w : World) (m2 previousWs : Nat)
    (hprev : (mget w.monitorWorkspaceMap d.primary).getD 0 = previousWs)
    (hne : w.globalWs ≠ previousWs)
    (hmon : getMonitorForWorkspace w.monitorWorkspaceMap w.globalWs = some m2)
    (hm2 : m2 ≠ d.primary)
    (hws : w.globalWs < w.nWorkspaces) :
    onSystemWorkspaceChanged d false w
      = performSwap d d.primary m2 previousWs w.globalWs true w ∧
    ((performSwap d d.primary m2 previousWs w.globalWs true w).windows
      = (performSwap d d.primary m2 previousWs w.globalWs false w).windows) ∧
    ((performSwap d d.primary m2 previousWs w.globalWs true w).monitorWorkspaceMap
      = (performSwap d d.primary m2 previousWs w.globalWs false w).monitorWorkspaceMap) ∧
    ((performSwap d d.primary m2 previousWs w.globalWs true w).activations
      = w.activations) ∧
    ((performSwap d d.primary m2 previousWs w.globalWs true w).globalWs
      = w.globalWs) ∧
    ((performSwap d d.primary m2 previousWs w.globalWs false w).activations
      = w.activations ++ [w.globalWs]) := by
  refine ⟨?_, (performSwap_skip_invariant d d.primary m2 previousWs w.globalWs w).1,
    (performSwap_skip_invariant d d.primary m2 previousWs w.globalWs w).2.1,
    performSwap_true_activations d d.primary m2 previousWs w.globalWs w,
    performSwap_true_globalWs d d.primary m2 previousWs w.globalWs w,
    performSwap_false_activations_primary d m2 previousWs w.globalWs w hws⟩
  subst hprev
  unfold onSystemWorkspaceChanged
  simp only [Bool.false_eq_true, if_false, if_neg hne, hmon, if_neg hm2]

/-- C7 witness: host switches the global workspace from 1 to 4 while M1
already displays 4; the handler performs the activate-suppressed swap
between M0 (primary) and M1. -/
theorem c7_external_change_swap_witness :
    onSystemWorkspaceChanged exDisplay2 false exC7World
      = performSwap exDisplay2 0 1 1 4 true exC7World ∧
    ((performSwap exDisplay2 0 1 1 4 true exC7World).windows
      = (performSwap exDisplay2 0 1 1 4 false exC7World).windows) ∧
    ((performSwap exDisplay2 0 1 1 4 true exC7World).monitorWorkspaceMap
      = (performSwap exDisplay2 0 1 1 4 false exC7World).monitorWorkspaceMap) ∧
    ((performSwap exDisplay2 0 1 1 4 true exC7World).activations
      = exC7World.activations) ∧
    ((performSwap exDisplay2 0 1 1 4 true exC7World).globalWs
      = exC7World.globalWs) ∧
    ((performSwap exDisplay2 0 1 1 4 false exC7World).activations
      = exC7World.activations ++ [exC7World.globalWs]) :=
  c7_external_change_swap exDisplay2 exC7World 1 1 (by decide) (by decide)
    (by decide) (by decide) (by decide)

/-! ## C3: stash/restore round trip in the primary simple switch -/

/-- Stashing a different window touches neither our window, nor our
cache entry, nor the workspace count, nor the id sequence. -/
theorem stashStep_other (geo : Rect) (prevWs : Nat) (acc : World) (win' : Window)
    (winId : Nat) (h : win'.id ≠ winId) :
    (findWindowById (stashStep geo prevWs acc win').windows winId
        = findWindowById acc.windows winId) ∧
    (mget (stashStep geo prevWs acc win').savedWindowPositions winId
        = mget acc.savedWindowPositions winId) ∧
    ((stashStep geo prevWs acc win').nWorkspaces = acc.nWorkspaces) ∧
    ((stashStep geo prevWs acc win').windows.map Window.id
        = acc.windows.map Window.id) := by
  unfold stashStep setWorkspaceIfExists setWorkspaceById
  simp only []
  by_cases hp : prevWs < acc.nWorkspaces
  · rw [if_pos hp]
    exact ⟨findWindowById_update_ne _ _ _ _ (fun _ => rfl) (Ne.symm h),
      mget_mset_ne _ _ _ _ (Ne.symm h), rfl,
      updateWindowById_ids _ _ _ (fun _ => rfl)⟩
  · rw [if_neg hp]
    exact ⟨rfl, mget_mset_ne _ _ _ _ (Ne.symm h), rfl, rfl⟩

/-- Restoring a different window touches neither our window nor our
cache entry. -/
theorem restoreStep_other (geo : Rect) (t : Nat) (acc : World) (id' winId : Nat)
    (h : winId ≠ id') :
    (findWindowById (restoreStep geo t acc id').windows winId
        = findWindowById acc.windows winId) ∧
    (mget (restoreStep geo t acc id').savedWindowPositions winId
        = mget acc.savedWindowPositions winId) := by
  unfold restoreStep moveFrameById
  cases hm : mget acc.savedWindowPositions id' with
  | none =>
    simp only [hm]
    refine ⟨findWindowById_update_ne _ _ _ _ (fun _ => rfl) h, ?_⟩
    trivial
  | some sp =>
    simp only [hm]
    by_cases hws : sp.wsIndex = t
    · simp only [if_pos hws]
      exact ⟨findWindowById_update_ne _ _ _ _ (fun _ => rfl) h,
        mget_mdel_ne _ _ _ h⟩
    · simp only [if_neg hws]
      refine ⟨findWindowById_update_ne _ _ _ _ (fun _ => rfl) h, ?_⟩
      trivial

/-- The restore step for our own window, with a cache entry tagged for
the target workspace: the window moves to the stashed offset from the
monitor origin and the entry is deleted. -/
theorem restoreStep_self (geo : Rect) (t : Nat) (acc : World) (winId : Nat)
    (sp : SavedPos) (hsp : mget acc.savedWindowPositions winId = some sp)
    (hws : sp.wsIndex = t) :
    (findWindowById (restoreStep geo t acc winId).windows winId
      = (findWindowById acc.windows winId).map (fun win =>
          { win with rect := { win.rect with
              x := geo.x + sp.relX, y := geo.y + sp.relY } })) ∧
    (mget (restoreStep geo t acc winId).savedWindowPositions winId = none) := by
  unfold restoreStep moveFrameById
  simp only [hsp, if_pos hws]
  exact ⟨findWindowById_update_self _ _ _ (fun _ => rfl), mget_mdel_self _ _⟩

/-- A fold preserves any property its step preserves for elements of
the list. -/
theorem foldl_preserve_mem {α β : Type} (f : β → α → β) (P : β → Prop)
    (l : List α) (h : ∀ b, ∀ a ∈ l, P b → P (f b a)) :
    ∀ b, P b → P (l.foldl f b) := by
  induction l with
  | nil => intro b hb; exact hb
  | cons a t ih =>
    intro b hb
    exact ih (fun b' a' ha' hb' => h b' a' (List.mem_cons_of_mem _ ha') hb') _
      (h b a (List.mem_cons_self _ _) hb)

/-- C3: if the cache holds the relative offset (relX, relY) for window
`winId` tagged with workspace `targetWs`, then the primary simple
switch to `targetWs` on monitor `monitorIndex` (the restore of that
window while the monitor displays `targetWs`) moves the window to the
absolute position (monitor.x + relX, monitor.y + relY) — the stashed
and restored offsets are identical — and consumes the cache entry. -/
theorem c3_stash_restore_roundtrip (d : Display)
    (monitorIndex prevWs targetWs : Nat) (skipActivate : Bool) (w : World)
    (winId : Nat) (win : Window) (relX relY : Int)
    (hfind : findWindowById w.windows winId = some win)
    (hids : (w.windows.map Window.id).Nodup)
    (hsp : mget w.savedWindowPositions winId = some ⟨relX, relY, targetWs⟩)
    (hnotvis : win ∉ getWindowsOnMonitor d w.windows monitorIndex false)
    (hws : win.workspace = some targetWs)
    (htype : win.wtype = WinType.normal)
    (hskip : win.skipTaskbar = false)
    (htn : targetWs < w.nWorkspaces) :
    ∃ win', findWindowById
        (simpleSwitchPrimary d monitorIndex prevWs targetWs skipActivate w).windows
        winId = some win' ∧
      win'.rect.x = (geoD d monitorIndex).x + relX ∧
      win'.rect.y = (geoD d monitorIndex).y + relY ∧
      mget (simpleSwitchPrimary d monitorIndex prevWs targetWs skipActivate
        w).savedWindowPositions winId = none := by
  have hid : win.id = winId := findWindowById_id hfind
  have hwmem : win ∈ w.windows := findWindowById_mem hfind
  -- every window stashed by the first loop has a different id
  have hstash : ∀ win' ∈ getWindowsOnMonitor d w.windows monitorIndex false,
      win'.id ≠ winId := by
    intro win' hv heq
    have hmem' : win' ∈ w.windows := by
      unfold getWindowsOnMonitor at hv
      exact (List.filter_sublist w.windows).mem hv
    have heqw : win' = win :=
      List.inj_on_of_nodup_map hids hmem' hwmem (heq.trans hid.symm)
    exact hnotvis (heqw ▸ hv)
  unfold simpleSwitchPrimary
  simp only []
  -- the state after the stash loop
  have hfold := foldl_preserve_mem (stashStep (geoD d monitorIndex) prevWs)
    (fun x => (findWindowById x.windows winId = some win) ∧
      (mget x.savedWindowPositions winId = some ⟨relX, relY, targetWs⟩) ∧
      (x.nWorkspaces = w.nWorkspaces) ∧
      (x.windows.map Window.id = w.windows.map Window.id))
    (getWindowsOnMonitor d w.windows monitorIndex false)
    (fun b a ha hb => by
      obtain ⟨h1, h2, h3, h4⟩ := hb
      obtain ⟨s1, s2, s3, s4⟩ :=
        stashStep_other (geoD d monitorIndex) prevWs b a winId (hstash a ha)
      exact ⟨s1.trans h1, s2.trans h2, s3.trans h3, s4.trans h4⟩)
    w ⟨hfind, hsp, rfl, rfl⟩
  obtain ⟨hf1, hf2, hf3, hf4⟩ := hfold
  -- our window is among the restore loop's targets, exactly once
  have hmemws : win ∈ getWindowsOnWorkspace
      ((getWindowsOnMonitor d w.windows monitorIndex false).foldl
        (stashStep (geoD d monitorIndex) prevWs) w) targetWs := by
    unfold getWindowsOnWorkspace
    rw [if_pos (by rw [hf3]; exact htn)]
    refine List.mem_filter.mpr ⟨findWindowById_mem hf1, ?_⟩
    simp [hskip, htype, hws]
  have hmemids : winId ∈ (getWindowsOnWorkspace
      ((getWindowsOnMonitor d w.windows monitorIndex false).foldl
        (stashStep (geoD d monitorIndex) prevWs) w) targetWs).map Window.id := by
    rw [List.mem_map]
    exact ⟨win, hmemws, hid⟩
  have hndids : ((getWindowsOnWorkspace
      ((getWindowsOnMonitor d w.windows monitorIndex false).foldl
        (stashStep (geoD d monitorIndex) prevWs) w) targetWs).map Window.id).Nodup := by
    unfold getWindowsOnWorkspace
    split
    · refine List.Nodup.sublist ?_ (hf4 ▸ hids)
      exact (List.filter_sublist _).map Window.id
    · simp
  obtain ⟨l1, l2, hsplit⟩ := List.append_of_mem hmemids
  rw [hsplit] at hndids
  have hno1 : winId ∉ l1 := by
    intro hin
    exact (List.nodup_append.mp hndids).2.2 hin (List.mem_cons_self _ _)
  have hno2 : winId ∉ l2 := by
    have := (List.nodup_append.mp hndids).2.1
    exact (List.nodup_cons.mp this).1
  rw [hsplit, List.foldl_append, List.foldl_cons]
  -- phase A: the restore loop up to our window leaves our state alone
  have hA := foldl_preserve_mem (restoreStep (geoD d monitorIndex) targetWs)
    (fun x => (findWindowById x.windows winId = some win) ∧
      (mget x.savedWindowPositions winId = some ⟨relX, relY, targetWs⟩))
    l1
    (fun b a ha hb => by
      obtain ⟨h1, h2⟩ := hb
      obtain ⟨s1, s2⟩ := restoreStep_other (geoD d monitorIndex) targetWs b a winId
        (fun heq => hno1 (heq ▸ ha))
      exact ⟨s1.trans h1, s2.trans h2⟩)
    _ ⟨hf1, hf2⟩
  obtain ⟨hA1, hA2⟩ := hA
  -- phase B: our window's own restore step
  obtain ⟨hB1, hB2⟩ := restoreStep_self (geoD d monitorIndex) targetWs
    (List.foldl (restoreStep (geoD d monitorIndex) targetWs)
      ((getWindowsOnMonitor d w.windows monitorIndex false).foldl
        (stashStep (geoD d monitorIndex) prevWs) w) l1) winId _ hA2 rfl
  rw [hA1] at hB1
  simp only [Option.map_some'] at hB1
  -- phase C: the remaining restore steps leave our state alone
  have hC := foldl_preserve_mem (restoreStep (geoD d monitorIndex) targetWs)
    (fun x => (findWindowById x.windows winId
        = some { win with rect := { win.rect with
            x := (geoD d monitorIndex).x + relX,
            y := (geoD d monitorIndex).y + relY } }) ∧
      (mget x.savedWindowPositions winId = none))
    l2
    (fun b a ha hb => by
      obtain ⟨h1, h2⟩ := hb
      obtain ⟨s1, s2⟩ := restoreStep_other (geoD d monitorIndex) targetWs b a winId
        (fun heq => hno2 (heq ▸ ha))
      exact ⟨s1.trans h1, s2.trans h2⟩)
    _ ⟨hB1, hB2⟩
  obtain ⟨hC1, hC2⟩ := hC
  -- phase D: the optional activation touches neither windows nor cache
  refine ⟨{ win with rect := { win.rect with
      x := (geoD d monitorIndex).x + relX,
      y := (geoD d monitorIndex).y + relY } }, ?_, rfl, rfl, ?_⟩
  · cases skipActivate with
    | true => simpa using hC1
    | false => simpa [activateWorkspace] using hC1
  · cases skipActivate with
    | true => simpa using hC2
    | false => simpa [activateWorkspace] using hC2

/-- C3 witness: window 9's offset (12, 34) stashed for workspace 7 is
restored at M0's origin plus (12, 34) by the switch to workspace 7, and
the cache entry is consumed. -/
theorem c3_stash_restore_roundtrip_witness :
    ∃ win', findWindowById
        (simpleSwitchPrimary exDisplay1 0 0 7 false exC3World).windows 9
        = some win' ∧
      win'.rect.x = (geoD exDisplay1 0).x + 12 ∧
      win'.rect.y = (geoD exDisplay1 0).y + 34 ∧
      mget (simpleSwitchPrimary exDisplay1 0 0 7 false
        exC3World).savedWindowPositions 9 = none :=
  c3_stash_restore_roundtrip exDisplay1 0 0 7 false exC3World 9 exStashedWindow
    12 34 (by decide) (by decide) (by decide) (by decide) (by decide)
    (by decide) (by decide) (by decide)

/-! ## C5: new-window placement -/

/-- C5 counterexample: the claim says the placed window's frame lies
within the pointer monitor's bounds.  A new normal window created with
its centre already on M1 = M0 (pointer monitor, mapped to workspace 2)
but protruding past the monitor edge is left at its position by the
already-on-target branch of `_moveWindowToMonitor` — no clamping — so
its frame is not within the monitor's bounds (the pending entry is
removed as claimed). -/
theorem c5_new_window_counterexample :
    mget exC5World.monitorWorkspaceMap (getMonitorAtPointer exDisplay1 50 50)
      = some 2 ∧
    (findWindowById
        (onWindowCreatedPlaced exDisplay1 50 50 1 exC5World).windows 1).map
        Window.rect = some ⟨-30, 10, 80, 20⟩ ∧
    ¬ frameWithin ⟨-30, 10, 80, 20⟩ (geoD exDisplay1 0) ∧
    mget (onWindowCreatedPlaced exDisplay1 50 50 1
      exC5World).windowsPendingPlacement 1 = none := by
  decide

/-- The updated window itself is in the updated list. -/
theorem mem_updateWindowById_self (l : List Window) (winId : Nat)
    (f : Window → Window) (win : Window) (hm : win ∈ l) (h : win.id = winId) :
    f win ∈ updateWindowById l winId f := by
  unfold updateWindowById
  have heq : f win = (fun v => if v.id = winId then f v else v) win := by simp [h]
  rw [heq]
  exact List.mem_map_of_mem _ hm

/-- `setWorkspaceIfExists` with an in-range index is `change_workspace`. -/
theorem setWorkspaceIfExists_pos (w : World) (winId ws : Nat)
    (h : ws < w.nWorkspaces) :
    setWorkspaceIfExists w winId ws = setWorkspaceById w winId ws := by
  unfold setWorkspaceIfExists
  rw [if_pos h]

/-- Two successive by-id updates, looked up afterwards. -/
theorem findWindowById_update2_self (l : List Window) (winId : Nat)
    (f g : Window → Window) (hf : ∀ v, (f v).id = v.id)
    (hg : ∀ v, (g v).id = v.id) (win : Window)
    (h : findWindowById l winId = some win) :
    findWindowById (updateWindowById (updateWindowById l winId f) winId g) winId
      = some (g (f win)) := by
  rw [findWindowById_update_self _ _ _ hg, findWindowById_update_self _ _ _ hf, h]
  rfl

/-- Three successive by-id updates, looked up afterwards. -/
theorem findWindowById_update3_self (l : List Window) (winId : Nat)
    (f g k : Window → Window) (hf : ∀ v, (f v).id = v.id)
    (hg : ∀ v, (g v).id = v.id) (hk : ∀ v, (k v).id = v.id) (win : Window)
    (h : findWindowById l winId = some win) :
    findWindowById (updateWindowById (updateWindowById
        (updateWindowById l winId f) winId g) winId k) winId
      = some (k (g (f win))) := by
  rw [findWindowById_update_self _ _ _ hk, findWindowById_update2_self _ _ _ _ hf hg _ h]
  rfl

/-- The clamp `max gx (min (gx + rel) (gx + gw - rwid))` keeps a window
of width `rwid ≤ gw` inside `[gx, gx + gw]`. -/
theorem clamp_within (gx gw rwid rel : Int) (hle : rwid ≤ gw) :
    gx ≤ max gx (min (gx + rel) (gx + gw - rwid)) ∧
    max gx (min (gx + rel) (gx + gw - rwid)) + rwid ≤ gx + gw := by
  constructor
  · exact le_max_left _ _
  · have h1 : min (gx + rel) (gx + gw - rwid) ≤ gx + gw - rwid := min_le_right _ _
    have h2 : max gx (min (gx + rel) (gx + gw - rwid)) ≤ gx + gw - rwid :=
      max_le (by omega) h1
    omega

/-- The tail of both branches of `_moveWindowToMonitor`: fix the
monitor association, tag the workspace (logical on primary, global on
secondary), finish placement. -/
theorem placeTail_spec (d : Display) (winId M ws2 : Nat) (w2 : World) (win2 : Window)
    (hfind2 : findWindowById w2.windows winId = some win2)
    (hws2 : ws2 < w2.nWorkspaces) :
    (findWindowById (finishWindowPlacement
        (if M = d.primary
         then setWorkspaceIfExists (moveToMonitorById w2 winId M) winId ws2
         else setWorkspaceById (moveToMonitorById w2 winId M) winId
           (moveToMonitorById w2 winId M).globalWs) winId).windows winId
      = some { win2 with assignedMonitor := M, workspace := some (if M = d.primary then ws2 else w2.globalWs) }) ∧
    ({ win2 with assignedMonitor := M, workspace := some (if M = d.primary then ws2 else w2.globalWs) }
      ∈ (finishWindowPlacement
        (if M = d.primary
         then setWorkspaceIfExists (moveToMonitorById w2 winId M) winId ws2
         else setWorkspaceById (moveToMonitorById w2 winId M) winId
           (moveToMonitorById w2 winId M).globalWs) winId).windows) := by
  have hid2 : win2.id = winId := findWindowById_id hfind2
  have hmem2 : win2 ∈ w2.windows := findWindowById_mem hfind2
  by_cases hp : M = d.primary
  · have hiteW : ∀ (a b : World), (if M = d.primary then a else b) = a :=
      fun a b => if_pos hp
    have hiteN : ∀ (a b : Nat), (if M = d.primary then a else b) = a :=
      fun a b => if_pos hp
    simp only [hiteW, hiteN]
    rw [setWorkspaceIfExists_pos _ _ _ (by exact hws2)]
    unfold finishWindowPlacement setWorkspaceById moveToMonitorById
    simp only []
    constructor
    · exact findWindowById_update2_self w2.windows winId
        (fun v => { v with assignedMonitor := M })
        (fun v => { v with workspace := some ws2 })
        (fun _ => rfl) (fun _ => rfl) win2 hfind2
    · exact mem_updateWindowById_self _ winId
        (fun v => { v with workspace := some ws2 })
        { win2 with assignedMonitor := M }
        (mem_updateWindowById_self _ winId
          (fun v => { v with assignedMonitor := M }) win2 hmem2 hid2) hid2
  · have hiteW : ∀ (a b : World), (if M = d.primary then a else b) = b :=
      fun a b => if_neg hp
    have hiteN : ∀ (a b : Nat), (if M = d.primary then a else b) = b :=
      fun a b => if_neg hp
    simp only [hiteW, hiteN]
    unfold finishWindowPlacement setWorkspaceById moveToMonitorById
    simp only []
    constructor
    · exact findWindowById_update2_self w2.windows winId
        (fun v => { v with assignedMonitor := M })
        (fun v => { v with workspace := some w2.globalWs })
        (fun _ => rfl) (fun _ => rfl) win2 hfind2
    · exact mem_updateWindowById_self _ winId
        (fun v => { v with workspace := some w2.globalWs })
        { win2 with assignedMonitor := M }
        (mem_updateWindowById_self _ winId
          (fun v => { v with assignedMonitor := M }) win2 hmem2 hid2) hid2

/-- C5 amended: after the deferred placement of a freshly created
normal window with the pointer on monitor M (mapped to workspace WS2),
the pending-placement entry is removed and the window is attributed to
WS2 on M by the engine's per-monitor window locator (the host-level tag
is M's logical workspace when M is primary and the current global
workspace otherwise); if the window appeared on a monitor other than M
its frame is clamped into M's bounds (given its dimensions fit M),
while a window already on M keeps its position unchanged (and its frame
may protrude). -/
theorem c5_new_window_placement_amended (d : Display) (px py : Int)
    (winId M ws2 : Nat) (w : World) (win : Window)
    (hfind : findWindowById w.windows winId = some win)
    (hfresh : shas w.recentlyProcessedWindows winId = false)
    (hnormal : win.wtype = WinType.normal)
    (hskip : win.skipTaskbar = false)
    (hhid : win.hidden = false)
    (hmin : win.minimized = false)
    (hM : getMonitorAtPointer d px py = M)
    (hMvalid : M < d.monitors.length)
    (hmapsto : mget w.monitorWorkspaceMap M = some ws2)
    (hws2 : ws2 < w.nWorkspaces)
    (hwide : 0 < win.rect.width ∧ win.rect.width ≤ (geoD d M).width)
    (htall : 0 < win.rect.height ∧ win.rect.height ≤ (geoD d M).height) :
    mget (onWindowCreatedPlaced d px py winId w).windowsPendingPlacement winId
      = none ∧
    (∃ win', findWindowById (onWindowCreatedPlaced d px py winId w).windows winId
        = some win' ∧
      win' ∈ getWindowsOnMonitorForWorkspace d
        (onWindowCreatedPlaced d px py winId w).windows M ws2 ∧
      ((findSourceMonitor d win.rect).map Prod.fst ≠ some M →
        frameWithin win'.rect (geoD d M)) ∧
      ((findSourceMonitor d win.rect).map Prod.fst = some M →
        win'.rect = win.rect)) := by
  have hget : d.monitors.get? M = some (geoD d M) := by
    unfold geoD
    rw [List.get?_eq_get hMvalid]
    rfl
  unfold onWindowCreatedPlaced
  rw [hfind]
  simp only [hfresh, Bool.false_eq_true, if_false, hnormal, hskip, hM]
  rw [if_neg (by simp)]
  unfold moveWindowToMonitor
  simp only []
  rw [hfind, hget]
  simp only [hmapsto]
  have hid : win.id = winId := findWindowById_id hfind
  have hwmem : win ∈ w.windows := findWindowById_mem hfind
  by_cases hsrc : Option.map Prod.fst (findSourceMonitor d win.rect) = some M
  · rw [if_pos hsrc]
    have hcenter : centerIn win.rect (geoD d M) = true := by
      unfold findSourceMonitor at hsrc
      cases hf : (List.range d.monitors.length).find?
          (fun i => centerIn win.rect (geoD d i)) with
      | none => rw [hf] at hsrc; simp at hsrc
      | some j =>
        rw [hf] at hsrc
        simp only [Option.map_map, Option.map_some'] at hsrc
        have hj : j = M := by simpa using hsrc
        subst hj
        have hp := List.find?_some hf
        simpa using hp
    by_cases hp : M = d.primary
    · rw [if_pos hp]
      rw [setWorkspaceIfExists_pos _ _ _ (by exact hws2)]
      unfold finishWindowPlacement setWorkspaceById moveToMonitorById
      simp only [Option.getD_some]
      constructor
      · exact mget_mdel_self _ _
      · refine ⟨{ win with assignedMonitor := M, workspace := some ws2 },
          ?_, ?_, ?_, ?_⟩
        · exact findWindowById_update2_self w.windows winId
            (fun v => { v with assignedMonitor := M })
            (fun v => { v with workspace := some ws2 })
            (fun _ => rfl) (fun _ => rfl) win hfind
        · unfold getWindowsOnMonitorForWorkspace
          refine List.mem_filter.mpr ⟨?_, ?_⟩
          · exact mem_updateWindowById_self _ winId
              (fun v => { v with workspace := some ws2 })
              { win with assignedMonitor := M }
              (mem_updateWindowById_self _ winId
                (fun v => { v with assignedMonitor := M }) win hwmem hid) hid
          · simp only [hp] at hcenter
            simp [hnormal, hhid, hmin, hcenter, hp, workspaceIndexOrNeg]
        · intro hc; exact absurd hsrc hc
        · intro _; rfl
    · rw [if_neg hp]
      unfold finishWindowPlacement setWorkspaceById moveToMonitorById
      simp only []
      constructor
      · exact mget_mdel_self _ _
      · refine ⟨{ win with assignedMonitor := M, workspace := some w.globalWs },
          ?_, ?_, ?_, ?_⟩
        · exact findWindowById_update2_self w.windows winId
            (fun v => { v with assignedMonitor := M })
            (fun v => { v with workspace := some w.globalWs })
            (fun _ => rfl) (fun _ => rfl) win hfind
        · unfold getWindowsOnMonitorForWorkspace
          refine List.mem_filter.mpr ⟨?_, ?_⟩
          · exact mem_updateWindowById_self _ winId
              (fun v => { v with workspace := some w.globalWs })
              { win with assignedMonitor := M }
              (mem_updateWindowById_self _ winId
                (fun v => { v with assignedMonitor := M }) win hwmem hid) hid
          · simp [hnormal, hhid, hmin, hcenter, hp]
        · intro hc; exact absurd hsrc hc
        · intro _; rfl
  · rw [if_neg hsrc]
    cases hs : findSourceMonitor d win.rect with
    | none =>
      simp only [hs]
      obtain ⟨hx1, hx2⟩ := clamp_within (geoD d M).x (geoD d M).width
        win.rect.width (Int.tmod win.rect.x (geoD d M).width) hwide.2
      obtain ⟨hy1, hy2⟩ := clamp_within (geoD d M).y (geoD d M).height
        win.rect.height (Int.tmod win.rect.y (geoD d M).height) htall.2
      have hfind2 := findWindowById_update_self w.windows winId
        (fun v => { v with rect := { v.rect with x := max (geoD d M).x (min ((geoD d M).x + (Int.tmod win.rect.x (geoD d M).width)) ((geoD d M).x + (geoD d M).width - win.rect.width)), y := max (geoD d M).y (min ((geoD d M).y + (Int.tmod win.rect.y (geoD d M).height)) ((geoD d M).y + (geoD d M).height - win.rect.height)) } })
        (fun _ => rfl)
      rw [hfind] at hfind2
      simp only [Option.map_some'] at hfind2
      have hpt := placeTail_spec d winId M ws2
        (moveFrameById
          { w with recentlyProcessedWindows := sadd w.recentlyProcessedWindows winId, windowsPendingPlacement := mset w.windowsPendingPlacement winId M }
          winId (max (geoD d M).x (min ((geoD d M).x + (Int.tmod win.rect.x (geoD d M).width)) ((geoD d M).x + (geoD d M).width - win.rect.width))) (max (geoD d M).y (min ((geoD d M).y + (Int.tmod win.rect.y (geoD d M).height)) ((geoD d M).y + (geoD d M).height - win.rect.height))))
        ({ win with rect := { win.rect with x := max (geoD d M).x (min ((geoD d M).x + (Int.tmod win.rect.x (geoD d M).width)) ((geoD d M).x + (geoD d M).width - win.rect.width)), y := max (geoD d M).y (min ((geoD d M).y + (Int.tmod win.rect.y (geoD d M).height)) ((geoD d M).y + (geoD d M).height - win.rect.height)) } })
        (by exact hfind2) (by exact hws2)
      constructor
      · exact mget_mdel_self _ _
      · refine ⟨_, hpt.1, ?_, ?_, ?_⟩
        · refine List.mem_filter.mpr ⟨hpt.2, ?_⟩
          by_cases hp : M = d.primary
          · subst hp
            simp [hnormal, hhid, hmin, workspaceIndexOrNeg, centerIn]
            omega
          · simp [hnormal, hhid, hmin, hp, workspaceIndexOrNeg, centerIn]
            omega
        · intro hmoved
          unfold frameWithin
          refine ⟨?_, ?_, ?_, ?_⟩ <;> simp only [] <;> omega
        · intro hc
          rw [hs] at hsrc
          exact absurd hc hsrc
    | some p =>
      obtain ⟨j, sgeo⟩ := p
      simp only [hs]
      obtain ⟨hx1, hx2⟩ := clamp_within (geoD d M).x (geoD d M).width
        win.rect.width (win.rect.x - sgeo.x) hwide.2
      obtain ⟨hy1, hy2⟩ := clamp_within (geoD d M).y (geoD d M).height
        win.rect.height (win.rect.y - sgeo.y) htall.2
      have hfind2 := findWindowById_update_self w.windows winId
        (fun v => { v with rect := { v.rect with x := max (geoD d M).x (min ((geoD d M).x + (win.rect.x - sgeo.x)) ((geoD d M).x + (geoD d M).width - win.rect.width)), y := max (geoD d M).y (min ((geoD d M).y + (win.rect.y - sgeo.y)) ((geoD d M).y + (geoD d M).height - win.rect.height)) } })
        (fun _ => rfl)
      rw [hfind] at hfind2
      simp only [Option.map_some'] at hfind2
      have hpt := placeTail_spec d winId M ws2
        (moveFrameById
          { w with recentlyProcessedWindows := sadd w.recentlyProcessedWindows winId, windowsPendingPlacement := mset w.windowsPendingPlacement winId M }
          winId (max (geoD d M).x (min ((geoD d M).x + (win.rect.x - sgeo.x)) ((geoD d M).x + (geoD d M).width - win.rect.width))) (max (geoD d M).y (min ((geoD d M).y + (win.rect.y - sgeo.y)) ((geoD d M).y + (geoD d M).height - win.rect.height))))
        ({ win with rect := { win.rect with x := max (geoD d M).x (min ((geoD d M).x + (win.rect.x - sgeo.x)) ((geoD d M).x + (geoD d M).width - win.rect.width)), y := max (geoD d M).y (min ((geoD d M).y + (win.rect.y - sgeo.y)) ((geoD d M).y + (geoD d M).height - win.rect.height)) } })
        (by exact hfind2) (by exact hws2)
      constructor
      · exact mget_mdel_self _ _
      · refine ⟨_, hpt.1, ?_, ?_, ?_⟩
        · refine List.mem_filter.mpr ⟨hpt.2, ?_⟩
          by_cases hp : M = d.primary
          · subst hp
            simp [hnormal, hhid, hmin, workspaceIndexOrNeg, centerIn]
            omega
          · simp [hnormal, hhid, hmin, hp, workspaceIndexOrNeg, centerIn]
            omega
        · intro hmoved
          unfold frameWithin
          refine ⟨?_, ?_, ?_, ?_⟩ <;> simp only [] <;> omega
        · intro hc
          rw [hs] at hsrc
          exact absurd hc hsrc

/-- C5 witness: a window created on M1 while the pointer was on M0
(primary, showing workspace 2) is pulled onto M0, clamped inside it,
attributed to workspace 2, and its pending entry is removed. -/
theorem c5_new_window_placement_amended_witness :
    mget (onWindowCreatedPlaced exDisplay2 50 50 1
        exC5WitnessWorld).windowsPendingPlacement 1 = none ∧
    (∃ win', findWindowById
        (onWindowCreatedPlaced exDisplay2 50 50 1 exC5WitnessWorld).windows 1
        = some win' ∧
      win' ∈ getWindowsOnMonitorForWorkspace exDisplay2
        (onWindowCreatedPlaced exDisplay2 50 50 1 exC5WitnessWorld).windows 0 2 ∧
      ((findSourceMonitor exDisplay2 exInnerWindow.rect).map Prod.fst ≠ some 0 →
        frameWithin win'.rect (geoD exDisplay2 0)) ∧
      ((findSourceMonitor exDisplay2 exInnerWindow.rect).map Prod.fst = some 0 →
        win'.rect = exInnerWindow.rect)) :=
  c5_new_window_placement_amended exDisplay2 50 50 1 0 2 exC5WitnessWorld
    exInnerWindow (by decide) (by decide) (by decide) (by decide) (by decide)
    (by decide) (by decide) (by decide) (by decide) (by decide) (by decide)
    (by decide)

/-! ## C1: map-level lemmas -/

theorem keys_mset_subset {α : Type} (m : List (Nat × α)) (k : Nat) (v : α) :
    ∀ x ∈ (mset m k v).map Prod.fst, x ∈ m.map Prod.fst ∨ x = k := by
  induction m with
  | nil =>
    intro x hx
    right
    simpa [mset] using hx
  | cons p t ih =>
    intro x hx
    simp only [List.map_cons]
    by_cases hp : p.1 = k
    · simp only [mset, if_pos hp, List.map_cons] at hx
      rcases List.mem_cons.mp hx with h | h
      · right; exact h
      · left; exact List.mem_cons_of_mem _ h
    · simp only [mset, if_neg hp, List.map_cons] at hx
      rcases List.mem_cons.mp hx with h | h
      · left; exact h ▸ List.mem_cons_self _ _
      · rcases ih x h with hh | hh
        · left; exact List.mem_cons_of_mem _ hh
        · right; exact hh

theorem keysNodup_mset {α : Type} (m : List (Nat × α)) (k : Nat) (v : α)
    (h : keysNodup m) : keysNodup (mset m k v) := by
  induction m with
  | nil => simp [keysNodup, mset]
  | cons p t ih =>
    unfold keysNodup at *
    simp only [List.map_cons, List.nodup_cons] at h
    by_cases hp : p.1 = k
    · simp only [mset, if_pos hp, List.map_cons, List.nodup_cons]
      exact ⟨hp ▸ h.1, h.2⟩
    · simp only [mset, if_neg hp, List.map_cons, List.nodup_cons]
      refine ⟨?_, ih h.2⟩
      intro hmem
      rcases keys_mset_subset t k v p.1 hmem with hh | hh
      · exact h.1 hh
      · exact hp hh

theorem mget_of_mem_nodup {α : Type} {m : List (Nat × α)} {k : Nat} {v : α}
    (hn : keysNodup m) (hm : (k, v) ∈ m) : mget m k = some v := by
  induction m with
  | nil => cases hm
  | cons p t ih =>
    unfold keysNodup at hn
    simp only [List.map_cons, List.nodup_cons] at hn
    rcases List.mem_cons.mp hm with h | h
    · rw [← h]
      simp [mget, List.find?]
    · have hp : ¬ p.1 = k := by
        intro he
        exact hn.1 (he ▸ (List.mem_map_of_mem Prod.fst h))
      unfold mget
      rw [List.find?_cons_of_neg _ (by simpa using hp)]
      exact ih hn.2 h

theorem getMonitorForWorkspace_mget {m : List (Nat × Nat)} {ws mon : Nat}
    (hn : keysNodup m) (h : getMonitorForWorkspace m ws = some mon) :
    mget m mon = some ws := by
  unfold getMonitorForWorkspace at h
  cases hf : m.find? (fun p => p.2 = ws) with
  | none => rw [hf] at h; cases h
  | some p =>
    rw [hf] at h
    simp only [Option.map_some', Option.some.injEq] at h
    have hmem := List.mem_of_find?_eq_some hf
    have hp := List.find?_some hf
    simp only [decide_eq_true_eq] at hp
    have hpe : p = (mon, ws) := by
      cases p
      simp only [Prod.mk.injEq]
      exact ⟨h, hp⟩
    exact mget_of_mem_nodup hn (hpe ▸ hmem)

theorem getMonitorForWorkspace_none {m : List (Nat × Nat)} {ws : Nat}
    (h : getMonitorForWorkspace m ws = none) :
    ∀ k v, mget m k = some v → v ≠ ws := by
  intro k v hv
  unfold getMonitorForWorkspace at h
  cases hf : m.find? (fun p => p.2 = ws) with
  | some p => rw [hf] at h; cases h
  | none =>
    have hmem := List.find?_eq_none.mp hf (k, v) (mget_mem hv)
    simpa using hmem

theorem totalOn_mset (m : List (Nat × Nat)) (n k v : Nat)
    (h : totalOn m n) : totalOn (mset m k v) n := by
  intro i hi
  by_cases hk : i = k
  · subst hk
    rw [mget_mset_self]
    rfl
  · rw [mget_mset_ne _ _ _ _ hk]
    exact h i hi

theorem noDuplicateWorkspace_mset_fresh (m : List (Nat × Nat)) (k ws : Nat)
    (hd : noDuplicateWorkspace m)
    (hfresh : ∀ a v, mget m a = some v → v ≠ ws) :
    noDuplicateWorkspace (mset m k ws) := by
  intro a b wa wb ha hb hab
  by_cases hak : a = k
  · subst hak
    rw [mget_mset_self] at ha
    rw [mget_mset_ne _ _ _ _ (Ne.symm hab)] at hb
    injection ha with ha
    subst ha
    intro he
    exact hfresh b wb hb he.symm
  · rw [mget_mset_ne _ _ _ _ hak] at ha
    by_cases hbk : b = k
    · subst hbk
      rw [mget_mset_self] at hb
      injection hb with hb
      subst hb
      exact hfresh a wa ha
    · rw [mget_mset_ne _ _ _ _ hbk] at hb
      exact hd a b wa wb ha hb hab

theorem noDuplicateWorkspace_swap (m : List (Nat × Nat)) (m1 m2 ws1 ws2 : Nat)
    (hd : noDuplicateWorkspace m)
    (h1 : mget m m1 = some ws1) (h2 : mget m m2 = some ws2)
    (hne : m1 ≠ m2) :
    noDuplicateWorkspace (mset (mset m m1 ws2) m2 ws1) := by
  have hws : ws1 ≠ ws2 := hd m1 m2 ws1 ws2 h1 h2 hne
  have hres : ∀ x wx, mget (mset (mset m m1 ws2) m2 ws1) x = some wx →
      (x = m2 ∧ wx = ws1) ∨ (x ≠ m2 ∧ x = m1 ∧ wx = ws2) ∨
      (x ≠ m2 ∧ x ≠ m1 ∧ mget m x = some wx) := by
    intro x wx hx
    by_cases hx2 : x = m2
    · subst hx2
      rw [mget_mset_self] at hx
      injection hx with hx
      exact Or.inl ⟨rfl, hx.symm⟩
    · rw [mget_mset_ne _ _ _ _ hx2] at hx
      by_cases hx1 : x = m1
      · subst hx1
        rw [mget_mset_self] at hx
        injection hx with hx
        exact Or.inr (Or.inl ⟨hx2, rfl, hx.symm⟩)
      · rw [mget_mset_ne _ _ _ _ hx1] at hx
        exact Or.inr (Or.inr ⟨hx2, hx1, hx⟩)
  intro a b wa wb ha hb hab
  rcases hres a wa ha with ⟨ha2, hwa⟩ | ⟨ha2, ha1, hwa⟩ | ⟨ha2, ha1, hwa⟩ <;>
    rcases hres b wb hb with ⟨hb2, hwb⟩ | ⟨hb2, hb1, hwb⟩ | ⟨hb2, hb1, hwb⟩
  · exact absurd (ha2.trans hb2.symm) hab
  · rw [hwa, hwb]; exact hws
  · rw [hwa]
    exact hd m1 b ws1 wb h1 hwb (fun hc => hb1 hc.symm)
  · rw [hwa, hwb]; exact Ne.symm hws
  · exact absurd (ha1.trans hb1.symm) hab
  · rw [hwa]
    exact hd m2 b ws2 wb h2 hwb (fun hc => hb2 hc.symm)
  · rw [hwb]
    exact Ne.symm (hd m1 a ws1 wa h1 hwa (fun hc => ha1 hc.symm))
  · rw [hwb]
    exact Ne.symm (hd m2 a ws2 wa h2 hwa (fun hc => ha2 hc.symm))
  · exact hd a b wa wb hwa hwb hab

/-! ## C1: the initial mapping -/

theorem initializeMapping_succ (n p cw : Nat) (m : List (Nat × Nat)) :
    initializeMapping (n + 1) p cw m
      = mset (initializeMapping n p cw m) n
          (if n = p then cw else (cw + n) % 10) := by
  unfold initializeMapping
  rw [List.range_succ, List.foldl_append, List.foldl_cons, List.foldl_nil]
  by_cases hp : n = p
  · rw [if_pos hp, if_pos hp]
  · rw [if_neg hp, if_neg hp]

theorem mget_initializeMapping_ge (n p cw i : Nat) (h : n ≤ i) :
    mget (initializeMapping n p cw []) i = none := by
  induction n with
  | zero => rfl
  | succ k ih =>
    rw [initializeMapping_succ]
    rw [mget_mset_ne _ _ _ _ (by omega)]
    exact ih (by omega)

theorem mget_initializeMapping_lt (n p cw i : Nat) (h : i < n) :
    mget (initializeMapping n p cw []) i
      = some (if i = p then cw else (cw + i) % 10) := by
  induction n with
  | zero => omega
  | succ k ih =>
    rw [initializeMapping_succ]
    by_cases hk : i = k
    · subst hk
      rw [mget_mset_self]
    · rw [mget_mset_ne _ _ _ _ hk]
      exact ih (by omega)

theorem keysNodup_initializeMapping (n p cw : Nat) :
    keysNodup (initializeMapping n p cw []) := by
  induction n with
  | zero => simp [keysNodup, initializeMapping]
  | succ k ih =>
    rw [initializeMapping_succ]
    exact keysNodup_mset _ _ _ ih

theorem totalOn_initializeMapping (n p cw : Nat) :
    totalOn (initializeMapping n p cw []) n := by
  intro i hi
  rw [mget_initializeMapping_lt n p cw i hi]
  rfl

/-- With the primary monitor at index 0, at most 10 monitors and a
current workspace below 10, `_initializeMapping` assigns pairwise
distinct workspaces. -/
theorem noDuplicateWorkspace_initializeMapping (n cw : Nat)
    (_hcw : cw < 10) (hn : n ≤ 10) :
    noDuplicateWorkspace (initializeMapping n 0 cw []) := by
  intro a b wa wb ha hb hab
  by_cases han : a < n
  · by_cases hbn : b < n
    · rw [mget_initializeMapping_lt n 0 cw a han] at ha
      rw [mget_initializeMapping_lt n 0 cw b hbn] at hb
      injection ha with ha
      injection hb with hb
      subst ha
      subst hb
      by_cases ha0 : a = 0
      · subst ha0
        rw [if_pos rfl]
        have hb0 : ¬ b = 0 := fun hc => hab hc.symm
        rw [if_neg hb0]
        intro he
        omega
      · rw [if_neg ha0]
        by_cases hb0 : b = 0
        · subst hb0
          rw [if_pos rfl]
          intro he
          omega
        · rw [if_neg hb0]
          intro he
          omega
    · rw [mget_initializeMapping_ge n 0 cw b (by omega)] at hb
      cases hb
  · rw [mget_initializeMapping_ge n 0 cw a (by omega)] at ha
    cases ha

/-- With a non-zero primary index (and at least two monitors),
`_initializeMapping` maps monitor 0 and the primary monitor to the same
workspace. -/
theorem initializeMapping_collision (n p cw : Nat)
    (hcw : cw < 10) (hpn : p < n) (hp0 : p ≠ 0) :
    mget (initializeMapping n p cw []) 0 = some cw ∧
    mget (initializeMapping n p cw []) p = some cw ∧
    (0 : Nat) ≠ p := by
  refine ⟨?_, ?_, fun hc => hp0 hc.symm⟩
  · rw [mget_initializeMapping_lt n p cw 0 (by omega)]
    rw [if_neg (fun hc => hp0 hc.symm)]
    congr 1
    omega
  · rw [mget_initializeMapping_lt n p cw p hpn]
    rw [if_pos rfl]

/-! ## C1: map projections of the switch pipeline -/

theorem getMonitorAtPointer_lt (d : Display) (px py : Int)
    (h : d.primary < d.monitors.length) :
    getMonitorAtPointer d px py < d.monitors.length := by
  unfold getMonitorAtPointer
  cases hf : (List.range d.monitors.length).find? (fun i => ptIn px py (geoD d i)) with
  | none => simpa using h
  | some i =>
    have hm := List.mem_of_find?_eq_some hf
    simpa [List.mem_range] using hm

theorem warpPointerToMonitorState_map (d : Display) (m : Nat) (w : World) :
    (warpPointerToMonitorState d m w).monitorWorkspaceMap
      = w.monitorWorkspaceMap := by
  unfold warpPointerToMonitorState
  simp only []
  repeat' split
  all_goals rfl

theorem focusLastOrAtPositionState_map (d : Display) (m ws : Nat) (w : World) :
    (focusLastOrAtPositionState d m ws w).monitorWorkspaceMap
      = w.monitorWorkspaceMap := by
  unfold focusLastOrAtPositionState
  repeat' split
  all_goals rfl

theorem stashStep_map (geo : Rect) (prevWs : Nat) (acc : World) (win : Window) :
    (stashStep geo prevWs acc win).monitorWorkspaceMap
      = acc.monitorWorkspaceMap := by
  unfold stashStep setWorkspaceIfExists setWorkspaceById
  simp only []
  split <;> rfl

theorem restoreStep_map (geo : Rect) (t : Nat) (acc : World) (winId : Nat) :
    (restoreStep geo t acc winId).monitorWorkspaceMap
      = acc.monitorWorkspaceMap := by
  unfold restoreStep moveFrameById
  simp only []
  repeat' split
  all_goals rfl

theorem simpleSwitchPrimary_map (d : Display) (monitorIndex prevWs targetWs : Nat)
    (skipActivate : Bool) (w : World) :
    (simpleSwitchPrimary d monitorIndex prevWs targetWs skipActivate
        w).monitorWorkspaceMap = w.monitorWorkspaceMap := by
  unfold simpleSwitchPrimary
  simp only []
  have h1 := foldl_preserve (stashStep (geoD d monitorIndex) prevWs)
    (fun x => x.monitorWorkspaceMap = w.monitorWorkspaceMap)
    (fun b a hb => (stashStep_map _ _ b a).trans hb)
    (getWindowsOnMonitor d w.windows monitorIndex false) w rfl
  have h2 := foldl_preserve (restoreStep (geoD d monitorIndex) targetWs)
    (fun x => x.monitorWorkspaceMap = w.monitorWorkspaceMap)
    (fun b a hb => (restoreStep_map _ _ b a).trans hb)
    ((getWindowsOnWorkspace ((getWindowsOnMonitor d w.windows monitorIndex
        false).foldl (stashStep (geoD d monitorIndex) prevWs) w)
      targetWs).map Window.id)
    _ h1
  cases skipActivate with
  | true => simpa using h2
  | false => simpa [activateWorkspace] using h2

theorem secondaryStep1_map (pg g : Rect) (pm prevWs : Nat) (acc : World)
    (win : Window) :
    (secondaryStep1 pg g pm prevWs acc win).monitorWorkspaceMap
      = acc.monitorWorkspaceMap := by
  unfold secondaryStep1 moveResizeFrameById moveToMonitorById
    setWorkspaceIfExists setWorkspaceById
  simp only []
  split <;> rfl

theorem secondaryStep2_map (pg g : Rect) (mi gws : Nat) (acc : World)
    (win : Window) :
    (secondaryStep2 pg g mi gws acc win).monitorWorkspaceMap
      = acc.monitorWorkspaceMap := by
  unfold secondaryStep2 moveResizeFrameById moveToMonitorById setWorkspaceById
  rfl

theorem simpleSwitchSecondary_map (d : Display) (monitorIndex prevWs targetWs : Nat)
    (w : World) :
    (simpleSwitchSecondary d monitorIndex prevWs targetWs
        w).monitorWorkspaceMap = w.monitorWorkspaceMap := by
  unfold simpleSwitchSecondary
  simp only []
  have h1 := foldl_preserve
    (secondaryStep1 (geoD d d.primary) (geoD d monitorIndex) d.primary prevWs)
    (fun x => x.monitorWorkspaceMap = w.monitorWorkspaceMap)
    (fun b a hb => (secondaryStep1_map _ _ _ _ b a).trans hb)
    (getWindowsOnMonitor d w.windows monitorIndex false) w rfl
  exact foldl_preserve
    (secondaryStep2 (geoD d d.primary) (geoD d monitorIndex) monitorIndex _)
    (fun x => x.monitorWorkspaceMap = w.monitorWorkspaceMap)
    (fun b a hb => (secondaryStep2_map _ _ _ _ b a).trans hb)
    _ _ h1

theorem saveWorkspaceWindowPositions_map (d : Display) (mi ws : Nat) (w : World) :
    (saveWorkspaceWindowPositions d mi ws w).monitorWorkspaceMap
      = w.monitorWorkspaceMap := by
  unfold saveWorkspaceWindowPositions
  simp only []
  refine foldl_preserve _
    (fun x : World => x.monitorWorkspaceMap = w.monitorWorkspaceMap)
    (fun b a hb => ?_) _ _ rfl
  exact hb

/-! ## C1: preservation of the map invariant -/

theorem mset_eq_of_mget {α : Type} {m : List (Nat × α)} {k : Nat} {v : α}
    (h : mget m k = some v) : mset m k v = m := by
  induction m with
  | nil => simp [mget] at h
  | cons p t ih =>
    by_cases hp : p.1 = k
    · unfold mget at h
      rw [List.find?_cons_of_pos _ (by simpa using hp)] at h
      simp only [Option.map_some', Option.some.injEq] at h
      unfold mset
      rw [if_pos hp]
      have : p = (k, v) := by
        cases p
        simp only [Prod.mk.injEq]
        exact ⟨hp, by simpa using h⟩
      rw [this]
    · unfold mget at h
      rw [List.find?_cons_of_neg _ (by simpa using hp)] at h
      unfold mset
      rw [if_neg hp, ih h]

theorem ensureWorkspaceExists_map (w : World) (t : Nat) :
    (ensureWorkspaceExists w t).monitorWorkspaceMap = w.monitorWorkspaceMap := rfl

theorem switchSimple_map (d : Display) (cm prev t : Nat) (w : World) :
    (switchSimple d cm prev t w).monitorWorkspaceMap
      = mset w.monitorWorkspaceMap cm t := by
  unfold switchSimple
  simp only []
  rw [focusLastOrAtPositionState_map]
  by_cases hp : cm = d.primary
  · rw [if_pos hp, simpleSwitchPrimary_map]
  · rw [if_neg hp, simpleSwitchSecondary_map]

theorem boundedKeys_mset (m : List (Nat × Nat)) (n k v : Nat)
    (h : boundedKeys m n) (hk : k < n) : boundedKeys (mset m k v) n := by
  intro a va ha
  by_cases hak : a = k
  · subst hak; exact hk
  · rw [mget_mset_ne _ _ _ _ hak] at ha
    exact h a va ha

theorem boundedKeys_initializeMapping (n p cw : Nat) :
    boundedKeys (initializeMapping n p cw []) n := by
  intro k v hk
  by_cases h : k < n
  · exact h
  · rw [mget_initializeMapping_ge n p cw k (by omega)] at hk
    cases hk

theorem engineReach_primary {d : Display} {w : World}
    (h : EngineReach d w) : d.primary = 0 := by
  induction h with
  | init w cw hcw hn hp hm => exact hp
  | switchStep w mode px py t hr ih => exact ih
  | externalStep w b hr ih => exact ih

theorem switchWorkspace_wf (d : Display) (mode : String) (px py : Int)
    (t : Nat) (w : World) (hlen : d.primary < d.monitors.length)
    (h : MapWF w.monitorWorkspaceMap d.monitors.length) :
    MapWF (switchWorkspace d mode px py t w).monitorWorkspaceMap
      d.monitors.length := by
  obtain ⟨⟨hdup, hnod, htot⟩, hbnd⟩ := h
  have hcml : getMonitorAtPointer d px py < d.monitors.length :=
    getMonitorAtPointer_lt d px py hlen
  obtain ⟨prev, hprev⟩ := Option.isSome_iff_exists.mp
    (htot (getMonitorAtPointer d px py) hcml)
  unfold switchWorkspace
  simp only []
  rw [hprev]
  simp only [Option.getD_some]
  by_cases ht : t = prev
  · rw [if_pos ht]
    exact ⟨⟨hdup, hnod, htot⟩, hbnd⟩
  · rw [if_neg ht, ensureWorkspaceExists_map]
    cases hex : getMonitorForWorkspace w.monitorWorkspaceMap t with
    | none =>
      simp only []
      rw [switchSimple_map, ensureWorkspaceExists_map]
      refine ⟨⟨?_, keysNodup_mset _ _ _ hnod, totalOn_mset _ _ _ _ htot⟩,
        boundedKeys_mset _ _ _ _ hbnd hcml⟩
      exact noDuplicateWorkspace_mset_fresh _ _ _ hdup
        (getMonitorForWorkspace_none hex)
    | some em =>
      have hem : mget w.monitorWorkspaceMap em = some t :=
        getMonitorForWorkspace_mget hnod hex
      have heml : em < d.monitors.length := hbnd em t hem
      simp only []
      by_cases hec : em = getMonitorAtPointer d px py
      · rw [if_pos hec, switchSimple_map, ensureWorkspaceExists_map]
        rw [hec] at hem
        rw [mset_eq_of_mget hem]
        exact ⟨⟨hdup, hnod, htot⟩, hbnd⟩
      · rw [if_neg hec]
        by_cases hmode : mode = "warp"
        · rw [if_pos hmode, warpPointerToMonitorState_map,
            ensureWorkspaceExists_map]
          exact ⟨⟨hdup, hnod, htot⟩, hbnd⟩
        · rw [if_neg hmode, focusLastOrAtPositionState_map, performSwap_map,
            ensureWorkspaceExists_map]
          refine ⟨⟨?_, keysNodup_mset _ _ _ (keysNodup_mset _ _ _ hnod),
            totalOn_mset _ _ _ _ (totalOn_mset _ _ _ _ htot)⟩,
            boundedKeys_mset _ _ _ _
              (boundedKeys_mset _ _ _ _ hbnd hcml) heml⟩
          exact noDuplicateWorkspace_swap _ _ _ _ _ hdup hprev hem
            (fun hc => hec hc.symm)

theorem onSystemWorkspaceChanged_wf (d : Display) (b : Bool) (w : World)
    (hlen : d.primary < d.monitors.length)
    (h : MapWF w.monitorWorkspaceMap d.monitors.length) :
    MapWF (onSystemWorkspaceChanged d b w).monitorWorkspaceMap
      d.monitors.length := by
  obtain ⟨⟨hdup, hnod, htot⟩, hbnd⟩ := h
  obtain ⟨prev, hprev⟩ := Option.isSome_iff_exists.mp (htot d.primary hlen)
  unfold onSystemWorkspaceChanged
  cases b with
  | true =>
    rw [if_pos rfl]
    exact ⟨⟨hdup, hnod, htot⟩, hbnd⟩
  | false =>
    rw [if_neg (by simp)]
    simp only []
    rw [hprev]
    simp only [Option.getD_some]
    by_cases ht : w.globalWs = prev
    · rw [if_pos ht]
      exact ⟨⟨hdup, hnod, htot⟩, hbnd⟩
    · rw [if_neg ht]
      cases hex : getMonitorForWorkspace w.monitorWorkspaceMap w.globalWs with
      | none =>
        simp only []
        rw [saveWorkspaceWindowPositions_map]
        refine ⟨⟨?_, keysNodup_mset _ _ _ hnod, totalOn_mset _ _ _ _ htot⟩,
          boundedKeys_mset _ _ _ _ hbnd hlen⟩
        exact noDuplicateWorkspace_mset_fresh _ _ _ hdup
          (getMonitorForWorkspace_none hex)
      | some em =>
        have hem : mget w.monitorWorkspaceMap em = some w.globalWs :=
          getMonitorForWorkspace_mget hnod hex
        have heml : em < d.monitors.length := hbnd em _ hem
        simp only []
        by_cases hec : em = d.primary
        · rw [if_pos hec, saveWorkspaceWindowPositions_map]
          rw [hec] at hem
          rw [mset_eq_of_mget hem]
          exact ⟨⟨hdup, hnod, htot⟩, hbnd⟩
        · rw [if_neg hec, performSwap_map]
          refine ⟨⟨?_, keysNodup_mset _ _ _ (keysNodup_mset _ _ _ hnod),
            totalOn_mset _ _ _ _ (totalOn_mset _ _ _ _ htot)⟩,
            boundedKeys_mset _ _ _ _
              (boundedKeys_mset _ _ _ _ hbnd hlen) heml⟩
          exact noDuplicateWorkspace_swap _ _ _ _ _ hdup hprev hem
            (fun hc => hec hc.symm)

theorem engineReach_wf {d : Display} {w : World}
    (hlen : 0 < d.monitors.length) (h : EngineReach d w) :
    MapWF w.monitorWorkspaceMap d.monitors.length := by
  induction h with
  | init w cw hcw hn hp hm =>
    rw [hm, hp]
    exact ⟨⟨noDuplicateWorkspace_initializeMapping _ _ hcw hn,
      keysNodup_initializeMapping _ _ _, totalOn_initializeMapping _ _ _⟩,
      boundedKeys_initializeMapping _ _ _⟩
  | switchStep w mode px py t hr ih =>
    exact switchWorkspace_wf d mode px py t w
      (by rw [engineReach_primary hr]; exact hlen) ih
  | externalStep w b hr ih =>
    exact onSystemWorkspaceChanged_wf d b w
      (by rw [engineReach_primary hr]; exact hlen) ih

/-- C1 counterexample: `_initializeMapping` itself breaks the claimed
invariant when the primary monitor's index is not 0 — with two
monitors, primary index 1 and current workspace 0, monitor 0 ("not the
primary", so assigned `(0 + 0) % 10 = 0`) and monitor 1 (the primary,
assigned the current workspace 0) are two distinct monitors mapped to
the same workspace. -/
theorem c1_mapping_invariant_counterexample :
    mget (initializeMapping 2 1 0 []) 0 = some 0 ∧
    mget (initializeMapping 2 1 0 []) 1 = some 0 ∧
    ¬ noDuplicateWorkspace (initializeMapping 2 1 0 []) := by
  refine ⟨by decide, by decide, fun hd => ?_⟩
  exact hd 0 1 0 0 (by decide) (by decide) (by decide) rfl

/-- C1 (amended): (1) on a layout whose primary monitor has index 0
(with at least one monitor; `_initializeMapping` runs with the current
workspace below 10 and at most 10 monitors), every quiescent state
reachable from mapping initialization through switch operations
(no-op, simple switch, warp, swap) and external workspace changes maps
no two distinct monitors to the same workspace; (2) with a non-zero
primary monitor index the initialization itself violates the
invariant: monitor 0 and the primary monitor receive the same
workspace. -/
theorem c1_mapping_invariant_amended :
    (∀ (d : Display) (w : World), 0 < d.monitors.length →
        EngineReach d w → noDuplicateWorkspace w.monitorWorkspaceMap) ∧
    (∀ n p cw : Nat, cw < 10 → p < n → p ≠ 0 →
        mget (initializeMapping n p cw []) 0 = some cw ∧
        mget (initializeMapping n p cw []) p = some cw ∧ (0 : Nat) ≠ p) := by
  constructor
  · intro d w hlen hr
    exact ((engineReach_wf hlen hr).1).1
  · intro n p cw hcw hpn hp0
    exact initializeMapping_collision n p cw hcw hpn hp0

/-- C1 witness: the amended theorem applied at the freshly initialized
two-monitor world (an `EngineReach.init` state) and at the concrete
collision (two monitors, primary index 1, current workspace 0). -/
theorem c1_mapping_invariant_amended_witness :
    noDuplicateWorkspace exC1World.monitorWorkspaceMap ∧
    (mget (initializeMapping 2 1 0 []) 0 = some 0 ∧
     mget (initializeMapping 2 1 0 []) 1 = some 0 ∧ (0 : Nat) ≠ 1) :=
  ⟨c1_mapping_invariant_amended.1 exDisplay2 exC1World (by decide)
      (EngineReach.init exC1World 3 (by decide) (by decide) (by decide) rfl),
   c1_mapping_invariant_amended.2 2 1 0 (by decide) (by decide) (by decide)⟩
